import Mathlib

/-!
Verification development for the utility-bills repository
(src/main.py and src/parser_old_bill.py).

Python `decimal.Decimal` values are modelled exactly as a pair of an
integer coefficient and a scale (number of fractional digits), so that
the value is `m / 10^s`.  All arithmetic used by the program
(addition, subtraction, multiplication, quantization to two decimal
places with ROUND_HALF_UP) is exact in this model; the default decimal
context precision (28 digits) is never reached by the program's data.
-/

namespace UtilityBills

/-- Exact decimal number: value is `m / 10^s`.  Mirrors `decimal.Decimal`
with exponent `-s`. -/
structure Dec where
  m : Int
  s : Nat
deriving DecidableEq, Repr

/-- Rational value of a decimal. -/
def Dec.val (d : Dec) : ℚ := (d.m : ℚ) / (10 : ℚ) ^ d.s

/-- Decimal addition (result scale is the larger scale, as in `Decimal`). -/
def Dec.add (a b : Dec) : Dec :=
  let t := max a.s b.s
  ⟨a.m * 10 ^ (t - a.s) + b.m * 10 ^ (t - b.s), t⟩

/-- Decimal subtraction. -/
def Dec.sub (a b : Dec) : Dec :=
  let t := max a.s b.s
  ⟨a.m * 10 ^ (t - a.s) - b.m * 10 ^ (t - b.s), t⟩

/-- Decimal multiplication (scales add). -/
def Dec.mul (a b : Dec) : Dec :=
  ⟨a.m * b.m, a.s + b.s⟩

/-- Integer division of `a` by `b > 0` rounding to nearest, ties away
from zero (the rounding used by `ROUND_HALF_UP`). -/
def halfAwayDiv (a : Int) (b : Nat) : Int :=
  let q : Nat := (2 * a.natAbs + b) / (2 * b)
  if 0 ≤ a then (q : Int) else -(q : Int)

/-- Model of `_round` in src/main.py:
`val.quantize(Decimal("0.01"), ROUND_HALF_UP)`. -/
def Dec.round2 (d : Dec) : Dec :=
  if d.s ≤ 2 then ⟨d.m * 10 ^ (2 - d.s), 2⟩
  else ⟨halfAwayDiv d.m (10 ^ (d.s - 2)), 2⟩

/-- Specification-side rounding to an integer, half away from zero,
taken from the spec's words (not from the code). -/
def roundHalfAwayInt (x : ℚ) : Int :=
  if 0 ≤ x then ⌊x + 1 / 2⌋ else -⌊-x + 1 / 2⌋

/-- Specification-side "round half away from zero at two decimal
places", taken from the spec's words. -/
def roundHalfAway2 (x : ℚ) : ℚ :=
  (roundHalfAwayInt (x * 100) : ℚ) / 100

/-! ## Characters, numerals and decimal strings -/

/-- Whitespace, as `\s` matches it in the program's texts
(space, newline, tab, carriage return). -/
def isWS (c : Char) : Bool :=
  c == ' ' || c == '\n' || c == '\t' || c == '\r'

/-- ASCII digit, as matched by `\d` / `[0-9]`. -/
def isDig (c : Char) : Bool :=
  48 ≤ c.toNat && c.toNat ≤ 57

/-- Lower-casing for the characters appearing in the program's patterns:
ASCII letters and the Cyrillic range А..Я (as done by `re.IGNORECASE`). -/
def lowCh (c : Char) : Char :=
  if 65 ≤ c.toNat ∧ c.toNat ≤ 90 then Char.ofNat (c.toNat + 32)
  else if 1040 ≤ c.toNat ∧ c.toNat ≤ 1071 then Char.ofNat (c.toNat + 32)
  else c

/-- Case-insensitive character comparison. -/
def lowEq (a b : Char) : Bool := lowCh a == lowCh b

/-- Decimal digit character of `n < 10`. -/
def digCh (n : Nat) : Char := Char.ofNat (48 + n)

/-- Decimal digit string, fueled so that reduction is structural; the
fuel `n + 1` always suffices since `n / 10 < n`. -/
def natCharsGo : Nat → Nat → List Char
  | 0, _ => []
  | fuel + 1, n =>
    if n < 10 then [digCh n]
    else natCharsGo fuel (n / 10) ++ [digCh (n % 10)]

/-- Decimal digit string of a natural number (most significant first),
as Python prints integer coefficients. -/
def natChars (n : Nat) : List Char := natCharsGo (n + 1) n

/-- Numeric value of a digit string. -/
def digitsToNat (ds : List Char) : Nat :=
  ds.foldl (fun a c => a * 10 + (c.toNat - 48)) 0

/-- Left-pad a digit string with zeros to length at least `k`. -/
def padZeros (k : Nat) (ds : List Char) : List Char :=
  List.replicate (k - ds.length) '0' ++ ds

/-- String form of a decimal, as `str(Decimal(...))` renders values whose
exponent is `-s ≤ 0`.  Following `Decimal.__str__`: with
`leftdigits = len(coefficient digits) - s`, fixed-point notation is used
when the exponent is zero or `leftdigits > -6` (that is,
`s < len + 6`): the coefficient digits with a decimal point inserted,
zero-padded so that at least one digit stands before the point.
Otherwise (adjusted exponent below -6) scientific notation is used: one
digit, a point and the remaining digits when there are any, then
`E-(s + 1 - len)`.  A leading minus sign marks negative values. -/
def Dec.toChars (d : Dec) : List Char :=
  let a := natChars d.m.natAbs
  let body :=
    if d.s = 0 then a
    else if d.s < a.length + 6 then
      let ds := padZeros (d.s + 1) a
      ds.take (ds.length - d.s) ++ '.' :: ds.drop (ds.length - d.s)
    else
      (if a.length ≤ 1 then a else a.take 1 ++ '.' :: a.drop 1)
        ++ 'E' :: '-' :: natChars (d.s + 1 - a.length)
  if d.m < 0 then '-' :: body else body

/-- Model of `_normalize_decimal`'s `value_str.replace(',', '.')`
(src/parser_old_bill.py). -/
def normDec (t : List Char) : List Char :=
  t.map (fun c => if c == ',' then '.' else c)

/-- Numeric reading of a (already comma-normalized) decimal token:
integer digits, optionally a point and fractional digits.  This is
`Decimal(normalized)` for the token shapes the regexes capture. -/
def charsToDec (t : List Char) : Dec :=
  let ip := t.takeWhile isDig
  let r := t.dropWhile isDig
  match r with
  | '.' :: fr =>
    let f := fr.takeWhile isDig
    ⟨(digitsToNat ip * 10 ^ f.length + digitsToNat f : Nat), f.length⟩
  | _ => ⟨(digitsToNat ip : Nat), 0⟩

/-- Model of `re.sub(r'\s+', ' ', message.strip())`: the collapsing
pass.  The flag records that a whitespace run is pending; a single
space is emitted before the next non-whitespace character, so interior
runs collapse and a trailing run vanishes. -/
def collapseWS : Bool → List Char → List Char
  | _, [] => []
  | pend, c :: cs =>
    if isWS c then collapseWS true cs
    else if pend then ' ' :: c :: collapseWS false cs
    else c :: collapseWS false cs

/-- Whitespace normalization applied by `parse_message`:
strip, then collapse interior whitespace runs to single spaces. -/
def pyNormalize (s : List Char) : List Char :=
  collapseWS false (s.dropWhile (fun c => isWS c))

/-! ## Data model (pydantic models of both source files) -/

/-- `UtilityReading` (src/parser_old_bill.py). -/
structure UtilityReading where
  previous : Dec
  current : Dec
  consumption : Dec
  rate : Dec
  amount : Dec
deriving DecidableEq, Repr

/-- A calendar date (day, month, year), the `datetime` payload the
parser stores (no time component is ever set). -/
structure DateDMY where
  day : Nat
  month : Nat
  year : Nat
deriving DecidableEq, Repr

/-- `UtilityBill` (src/parser_old_bill.py).  All four reading fields are
declared `Optional[...] = Field(...)`: the value may be `None` but the
key is required by pydantic, which is captured at construction time in
`parse_message` below. -/
structure UtilityBill where
  cold_water : Option UtilityReading
  hot_water : Option UtilityReading
  water_disposal : Option UtilityReading
  electricity : Option UtilityReading
  total : Dec
  date : DateDMY
deriving DecidableEq, Repr

/-- `InputData` (src/main.py): new readings plus optional rate overrides. -/
structure InputData where
  cw : Dec
  hw : Dec
  el : Dec
  cw_rate : Option Dec := none
  hw_rate : Option Dec := none
  wd_rate : Option Dec := none
  el_rate : Option Dec := none
deriving DecidableEq, Repr

/-! ## The old-bill regex patterns

Each regex of `TelegramBillParser.patterns` is embedded as a
deterministic matcher.  For these patterns greedy matching never needs
to backtrack, with one exception: the two adjacent groups
`(\d+)\s*(\d+(?:[.,]\d+)?)` (current reading followed by consumption)
can split one digit run, which `takeTwoNums` handles exactly as the
backtracking engine does. -/

/-- Consume a case-insensitive literal. -/
def stripLit : List Char → List Char → Option (List Char)
  | [], s => some s
  | _ :: _, [] => none
  | p :: ps, c :: cs => if lowEq p c then stripLit ps cs else none

/-- Consume `(\d+)`: a nonempty maximal digit run. -/
def takeRun (s : List Char) : Option (List Char × List Char) :=
  let d := s.takeWhile isDig
  if d.isEmpty then none else some (d, s.dropWhile isDig)

/-- Consume `(\d+(?:[.,]\d+)?)`: maximal digit run, then an optional
fractional part (separator plus nonempty digit run).  When the
fractional part is present the greedy engine must keep it: dropping it
leaves the separator, which no following pattern element can match. -/
def takeNum (s : List Char) : Option (List Char × List Char) :=
  let ds := s.takeWhile isDig
  let r1 := s.dropWhile isDig
  if ds.isEmpty then none
  else
    match r1 with
    | c :: c2 :: rest =>
      if (c == '.' || c == ',') && isDig c2 then
        let f := (c2 :: rest).takeWhile isDig
        let r2 := (c2 :: rest).dropWhile isDig
        some (ds ++ c :: f, r2)
      else some (ds, r1)
    | _ => some (ds, r1)

/-- Head of the list is a digit. -/
def headDig : List Char → Bool
  | c :: _ => isDig c
  | [] => false

/-- Consume `(\d+)\s*(\d+(?:[.,]\d+)?)` with the engine's backtracking:
greedily the first group takes the whole digit run; if no second digit
run follows the whitespace, the engine backs the first group off by one
digit and the second group starts at the run's last digit. -/
def takeTwoNums (s : List Char) :
    Option (List Char × List Char × List Char) :=
  let d := s.takeWhile isDig
  let r := s.dropWhile isDig
  if d.isEmpty then none
  else
    let r2 := r.dropWhile isWS
    if headDig r2 then
      match takeNum r2 with
      | some (t, r3) => some (d, t, r3)
      | none => none
    else
      if d.length < 2 then none
      else
        let cur := d.take (d.length - 1)
        let last1 := d.drop (d.length - 1)
        match r with
        | c :: c2 :: rest =>
          if (c == '.' || c == ',') && isDig c2 then
            let f := (c2 :: rest).takeWhile isDig
            let r2b := (c2 :: rest).dropWhile isDig
            some (cur, last1 ++ c :: f, r2b)
          else some (cur, last1, r)
        | _ => some (cur, last1, r)

/-- Consume exactly `n` digits (`\d{n}`). -/
def takeExactDigits (n : Nat) (s : List Char) :
    Option (List Char × List Char) :=
  let d := s.take n
  if d.length = n ∧ d.all isDig then some (d, s.drop n) else none

/-- Consume a sequence of literals, each followed by `\s*`. -/
def matchLabels : List (List Char) → List Char → Option (List Char)
  | [], s => some s
  | l :: ls, s =>
    match stripLit l s with
    | some r => matchLabels ls (r.dropWhile isWS)
    | none => none

/-- Match attempt at the current position for the three metered-utility
patterns: `LBL Было\s*-\s*(\d+)\s*Стало\s*-\s*(\d+)\s*(\d+(?:[.,]\d+)?)
\s*\*\s*(\d+(?:[.,]\d+)?)\s*=\s*(\d+(?:[.,]\d+)?)`.
Returns the five captured groups. -/
def meterMatch (labels : List (List Char)) (s : List Char) :
    Option (List Char × List Char × List Char × List Char × List Char) := do
  let s1 ← matchLabels labels s
  let s2 ← stripLit ("Было").data s1
  let s3 := s2.dropWhile isWS
  let s4 ← stripLit ("-").data s3
  let s5 := s4.dropWhile isWS
  let (pv, s6) ← takeRun s5
  let s7 := s6.dropWhile isWS
  let s8 ← stripLit ("Стало").data s7
  let s9 := s8.dropWhile isWS
  let s10 ← stripLit ("-").data s9
  let s11 := s10.dropWhile isWS
  let (cur, consTok, s12) ← takeTwoNums s11
  let s13 := s12.dropWhile isWS
  let s14 ← stripLit ("*").data s13
  let s15 := s14.dropWhile isWS
  let (rateTok, s16) ← takeNum s15
  let s17 := s16.dropWhile isWS
  let s18 ← stripLit ("=").data s17
  let s19 := s18.dropWhile isWS
  let (amtTok, _) ← takeNum s19
  pure (pv, cur, consTok, rateTok, amtTok)

/-- The `cold_water` pattern's label part `Хол\.\s*вода:` followed by `\s*`. -/
def coldLabels : List (List Char) := [("Хол.").data, ("вода:").data]

/-- The `hot_water` pattern's label part `Гор\.\s*вода:`. -/
def hotLabels : List (List Char) := [("Гор.").data, ("вода:").data]

/-- The `electricity` pattern's label `Электроэнергия:`. -/
def elecLabels : List (List Char) := [("Электроэнергия:").data]

/-- Match attempt for the `water_disposal` pattern:
`Водоотведение:\s*(\d+(?:[.,]\d+)?)\s*\*\s*(\d+(?:[.,]\d+)?)\s*=\s*(\d+(?:[.,]\d+)?)`. -/
def wdMatch (s : List Char) : Option (List Char × List Char × List Char) := do
  let s1 ← matchLabels [("Водоотведение:").data] s
  let (consTok, s2) ← takeNum s1
  let s3 := s2.dropWhile isWS
  let s4 ← stripLit ("*").data s3
  let s5 := s4.dropWhile isWS
  let (rateTok, s6) ← takeNum s5
  let s7 := s6.dropWhile isWS
  let s8 ← stripLit ("=").data s7
  let s9 := s8.dropWhile isWS
  let (amtTok, _) ← takeNum s9
  pure (consTok, rateTok, amtTok)

/-- Match attempt for the `total` pattern `Итого:\s*(\d+(?:[.,]\d+)?)`. -/
def totalMatch (s : List Char) : Option (List Char) := do
  let s1 ← matchLabels [("Итого:").data] s
  let (t, _) ← takeNum s1
  pure t

/-- Match attempt for the `date` pattern
`#счетчики\s*(\d{2}\.\d{2}\.\d{4})`. -/
def dateMatch (s : List Char) :
    Option (List Char × List Char × List Char) := do
  let s1 ← matchLabels [("#счетчики").data] s
  let (dd, s2) ← takeExactDigits 2 s1
  let s3 ← stripLit (".").data s2
  let (mm, s4) ← takeExactDigits 2 s3
  let s5 ← stripLit (".").data s4
  let (yy, _) ← takeExactDigits 4 s5
  pure (dd, mm, yy)

/-- `re.search`: try a match at every position, left to right (also at
the empty suffix). -/
def searchFrom (f : List Char → Option α) : List Char → Option α
  | [] => f []
  | c :: t =>
    match f (c :: t) with
    | some x => some x
    | none => searchFrom f t

/-! ## `parse_message` (src/parser_old_bill.py) -/

/-- Errors `parse_message` can raise: the two explicit `ValueError`s,
a `ValueError` out of `datetime.strptime` for a captured but invalid
date, and pydantic's `ValidationError` for required `UtilityBill`
fields whose key is absent from `data`. -/
inductive ParseErr where
  | valueError (msg : String) : ParseErr
  | invalidDate : ParseErr
  | validationError (missing : List String) : ParseErr
deriving DecidableEq, Repr

def totalMsg : String := "Не найдена общая сумма в сообщении"

def dateMsg : String := "Не найдена дата в сообщении"

/-- Gregorian month lengths, as `datetime.strptime` validates them. -/
def daysInMonth (m y : Nat) : Nat :=
  if m = 2 then (if (y % 4 = 0 ∧ y % 100 ≠ 0) ∨ y % 400 = 0 then 29 else 28)
  else if m = 4 ∨ m = 6 ∨ m = 9 ∨ m = 11 then 30 else 31

/-- Validity check performed by `datetime.strptime(date_str, '%d.%m.%Y')`. -/
def validDMY (d m y : Nat) : Bool :=
  1 ≤ y && y ≤ 9999 && 1 ≤ m && m ≤ 12 && 1 ≤ d && d ≤ daysInMonth m y

/-- Build a `UtilityReading` from the five captured groups, each passed
through `_normalize_decimal`. -/
def mkReading (g : List Char × List Char × List Char × List Char × List Char) :
    UtilityReading :=
  ⟨charsToDec (normDec g.1), charsToDec (normDec g.2.1),
    charsToDec (normDec g.2.2.1), charsToDec (normDec g.2.2.2.1),
    charsToDec (normDec g.2.2.2.2)⟩

/-- The `UtilityBill` fields whose keys are absent from `data`
(pydantic reports them in declaration order). -/
def missingFields (c h w e : Option UtilityReading) : List String :=
  (if c.isSome then [] else ["cold_water"]) ++
  (if h.isSome then [] else ["hot_water"]) ++
  (if w.isSome then [] else ["water_disposal"]) ++
  (if e.isSome then [] else ["electricity"])

/-- The cold-water extraction: search, then build the reading from the
normalized groups. -/
def coldOf (cm : List Char) : Option UtilityReading :=
  (searchFrom (meterMatch coldLabels) cm).map mkReading

/-- The hot-water extraction. -/
def hotOf (cm : List Char) : Option UtilityReading :=
  (searchFrom (meterMatch hotLabels) cm).map mkReading

/-- The electricity extraction. -/
def elecOf (cm : List Char) : Option UtilityReading :=
  (searchFrom (meterMatch elecLabels) cm).map mkReading

/-- The water-disposal extraction: its `current` is synthesized as the
sum of the cold and hot consumptions already parsed (`Decimal('0')`
plus each present one), its `previous` is zero. -/
def wdOf (cm : List Char) : Option UtilityReading :=
  (searchFrom wdMatch cm).map (fun g =>
    let t0 : Dec := ⟨0, 0⟩
    let t1 := match coldOf cm with | some r => t0.add r.consumption | none => t0
    let t2 := match hotOf cm with | some r => t1.add r.consumption | none => t1
    ({ previous := ⟨0, 0⟩, current := t2,
       consumption := charsToDec (normDec g.1),
       rate := charsToDec (normDec g.2.1),
       amount := charsToDec (normDec g.2.2) } : UtilityReading))

/-- `UtilityBill(**data)`: pydantic treats all four reading keys as
required, so construction succeeds only when all four sections were
extracted, and otherwise reports the missing keys. -/
def assembleBill (cold hot wd elec : Option UtilityReading) (t : Dec)
    (dt : DateDMY) : Except ParseErr UtilityBill :=
  match cold, hot, wd, elec with
  | some c, some h, some w, some e =>
    Except.ok ⟨some c, some h, some w, some e, t, dt⟩
  | _, _, _, _ => Except.error (.validationError (missingFields cold hot wd elec))

/-- `parse_message` on the already-normalized text. -/
def parseFrom (cm : List Char) : Except ParseErr UtilityBill :=
  match searchFrom totalMatch cm with
  | none => Except.error (.valueError totalMsg)
  | some t =>
    match searchFrom dateMatch cm with
    | none => Except.error (.valueError dateMsg)
    | some (dd, mm, yy) =>
      if validDMY (digitsToNat dd) (digitsToNat mm) (digitsToNat yy) then
        assembleBill (coldOf cm) (hotOf cm) (wdOf cm) (elecOf cm)
          (charsToDec (normDec t))
          ⟨digitsToNat dd, digitsToNat mm, digitsToNat yy⟩
      else Except.error .invalidDate

/-- `TelegramBillParser.parse_message`. -/
def parse_message (msg : List Char) : Except ParseErr UtilityBill :=
  parseFrom (pyNormalize msg)

/-! ## `_parse_input` (src/main.py)

The three `re.findall` scans are embedded as left-to-right scanners.
Each is written with a fuel argument equal to the input length plus
one; every recursive step consumes at least one character, so the fuel
is never exhausted and the scanner computes exactly the findall result. -/

/-- `\w` as the payload regexes use it: ASCII letters, digits,
underscore, and the Cyrillic block. -/
def isWordCh (c : Char) : Bool :=
  isDig c || (65 ≤ c.toNat && c.toNat ≤ 90) || (97 ≤ c.toNat && c.toNat ≤ 122)
    || c == '_' || (1024 ≤ c.toNat && c.toNat ≤ 1279)

/-- `re.findall(r"(\w+?)\s*=\s*([0-9]+(?:[.,][0-9]+)?)", payload)`:
a lazy `\w+?` group can only succeed once it spans the whole word run
(a shorter group leaves a word character where `\s*=` must match), so
each candidate is the maximal word run at the scan position, followed
by optional spaces, `=`, optional spaces and a number. -/
def findPairsGo : Nat → List Char → List (List Char × List Char)
  | 0, _ => []
  | _, [] => []
  | fuel + 1, c :: cs =>
    if isWordCh c then
      let w := (c :: cs).takeWhile isWordCh
      let r := (c :: cs).dropWhile isWordCh
      match r.dropWhile isWS with
      | '=' :: r3 =>
        match takeNum (r3.dropWhile isWS) with
        | some (v, r4) => (w, v) :: findPairsGo fuel r4
        | none => findPairsGo fuel r
      | _ => findPairsGo fuel r
    else findPairsGo fuel cs

def findPairs (s : List Char) : List (List Char × List Char) :=
  findPairsGo (s.length + 1) s

/-- `re.findall(r"\d+(?:[.,]\d+)?", payload)`: every numeric token,
including those inside `key=value` pairs. -/
def findNumsGo : Nat → List Char → List (List Char)
  | 0, _ => []
  | _, [] => []
  | fuel + 1, c :: cs =>
    if isDig c then
      match takeNum (c :: cs) with
      | some (v, r) => v :: findNumsGo fuel r
      | none => findNumsGo fuel cs
    else findNumsGo fuel cs

def findNums (s : List Char) : List (List Char) :=
  findNumsGo (s.length + 1) s

/-- `re.findall(r"(\w+_rate)\s*=\s*([0-9]+(?:[.,][0-9]+)?)", payload, re.I)`:
the greedy `\w+` forces the literal `_rate` to sit at the end of the
word run, so a candidate is a word run of length at least six whose
last five characters are `_rate` (case-insensitively), followed by
`=` and a number. -/
def findRatePairsGo : Nat → List Char → List (List Char × List Char)
  | 0, _ => []
  | _, [] => []
  | fuel + 1, c :: cs =>
    if isWordCh c then
      let w := (c :: cs).takeWhile isWordCh
      let r := (c :: cs).dropWhile isWordCh
      if 6 ≤ w.length ∧ (w.map lowCh).drop (w.length - 5) = ("_rate").data then
        match r.dropWhile isWS with
        | '=' :: r3 =>
          match takeNum (r3.dropWhile isWS) with
          | some (v, r4) => (w, v) :: findRatePairsGo fuel r4
          | none => findRatePairsGo fuel r
        | _ => findRatePairsGo fuel r
      else findRatePairsGo fuel r
    else findRatePairsGo fuel cs

def findRatePairs (s : List Char) : List (List Char × List Char) :=
  findRatePairsGo (s.length + 1) s

/-- Association-list update with later-wins semantics (a Python dict
comprehension keeps the last value for a repeated key). -/
def assocUpd (l : List (String × Dec)) (k : String) (v : Dec) :
    List (String × Dec) :=
  if l.any (fun p => p.1 == k) then
    l.map (fun p => if p.1 == k then (k, v) else p)
  else l ++ [(k, v)]

/-- `{k.lower(): Decimal(v.replace(",", ".")) for k, v in pairs}`. -/
def pairsDict (ps : List (List Char × List Char)) : List (String × Dec) :=
  ps.foldl (fun d p => assocUpd d (String.mk (p.1.map lowCh)) (charsToDec (normDec p.2))) []

def dictGet (d : List (String × Dec)) (k : String) : Option Dec :=
  (d.find? (fun p => p.1 == k)).map (fun p => p.2)

def dictHas (d : List (String × Dec)) (k : String) : Bool :=
  d.any (fun p => p.1 == k)

/-- The field names and aliases `InputData` accepts
(`populate_by_name = True`). -/
def allowedKeys : List String :=
  ["cw", "hw", "el", "cold_water", "hot_water", "electricity",
   "cw_rate", "hw_rate", "wd_rate", "el_rate"]

def extraForbiddenMsg : String := "extra field forbidden"

/-- `InputData.model_validate(data)`: any key outside the recognized
set is a validation error; otherwise the fields are filled from the
dict.  Callers reach this only with `cw`, `hw`, `el` present. -/
def modelValidate (d : List (String × Dec)) : Except String InputData :=
  if d.all (fun p => allowedKeys.contains p.1) then
    match (dictGet d "cw").orElse (fun _ => dictGet d "cold_water"),
        (dictGet d "hw").orElse (fun _ => dictGet d "hot_water"),
        (dictGet d "el").orElse (fun _ => dictGet d "electricity") with
    | some cw, some hw, some el =>
      .ok ⟨cw, hw, el, dictGet d "cw_rate", dictGet d "hw_rate",
        dictGet d "wd_rate", dictGet d "el_rate"⟩
    | _, _, _ => .error "field required"
  else .error extraForbiddenMsg

/-- `InputData(cw=cw, hw=hw, el=el, **rates)`: a rates key outside the
four rate fields is rejected (`extra = "forbid"`). -/
def buildInputB (cw hw el : Dec) (rates : List (String × Dec)) :
    Except String InputData :=
  if rates.all (fun p =>
      (["cw_rate", "hw_rate", "wd_rate", "el_rate"] : List String).contains p.1) then
    .ok ⟨cw, hw, el, dictGet rates "cw_rate", dictGet rates "hw_rate",
      dictGet rates "wd_rate", dictGet rates "el_rate"⟩
  else .error extraForbiddenMsg

def cmdErrMsg : String :=
  "Не смог распознать команду. Форматы: 'cw=587 hw=49 el=8108 hw_rate=275' или '587 49 8108'."

/-- `text.split(maxsplit=1)[1]` if a second part exists, else the empty
payload. -/
def payloadOf (text : List Char) : List Char :=
  let t1 := text.dropWhile (fun c => isWS c)
  let t2 := t1.dropWhile (fun c => !isWS c)
  t2.dropWhile (fun c => isWS c)

/-- The grammar-A guard of `_parse_input`: an `=` occurs in the
payload, the pair scan is nonempty, and the keyed dict contains the
names `cw`, `hw` and `el`. -/
def grammarAApplies (payload : List Char) : Bool :=
  payload.any (fun c => c == '=') &&
  !(findPairs payload).isEmpty &&
  (["cw", "hw", "el"] : List String).all (fun k => dictHas (pairsDict (findPairs payload)) k)

/-- `_parse_input`, applied to the payload after the command token:
Grammar A when its guard holds, otherwise Grammar B on the first three
numeric tokens (`nums[:3]`), else the two-formats error. -/
def parseCore (payload : List Char) : Except String InputData :=
  if grammarAApplies payload then
    modelValidate (pairsDict (findPairs payload))
  else
    match findNums payload with
    | a :: b :: c :: _ =>
      buildInputB (charsToDec (normDec a)) (charsToDec (normDec b))
        (charsToDec (normDec c)) (pairsDict (findRatePairs payload))
    | _ => Except.error cmdErrMsg

/-- `_parse_input` (src/main.py). -/
def parseInput (text : List Char) : Except String InputData :=
  parseCore (payloadOf text)

/-! ## The calculator (`_get_rate`, `_build_message` in src/main.py) -/

def missingRateMsg : String :=
  "Отсутствует тариф (rate) в старом сообщении, и он не указан в команде."

/-- The `AttributeError` text raised when a reading needed for a
consumption difference is `None`. -/
def noCurrentMsg : String := "'NoneType' object has no attribute 'current'"

/-- `_get_rate(override, fallback)`. -/
def getRate (override : Option Dec) (fallback : Option UtilityReading) :
    Except String Dec :=
  match override with
  | some r => .ok r
  | none =>
    match fallback with
    | some rd => .ok rd.rate
    | none => .error missingRateMsg

/-- The intermediate values `_build_message` computes before
formatting. -/
structure CalcResult where
  cw_rate : Dec
  hw_rate : Dec
  el_rate : Dec
  wd_rate : Dec
  cw_cons : Dec
  hw_cons : Dec
  wd_cons : Dec
  el_cons : Dec
  cw_amt : Dec
  hw_amt : Dec
  wd_amt : Dec
  el_amt : Dec
  total : Dec
deriving DecidableEq, Repr

/-- The computation part of `_build_message`, in the order the source
evaluates it: the three meter rates, the water-disposal rate (with its
zero fallback when the old bill has no water-disposal reading), then the
consumptions (each access to a missing reading's `current` raises), the
rounded amounts and the rounded total. -/
def computeCalc (old : UtilityBill) (inp : InputData) :
    Except String CalcResult := do
  let cw_rate ← getRate inp.cw_rate old.cold_water
  let hw_rate ← getRate inp.hw_rate old.hot_water
  let el_rate ← getRate inp.el_rate old.electricity
  let wd_rate ← match old.water_disposal with
    | some rd => getRate inp.wd_rate (some rd)
    | none => Except.ok (inp.wd_rate.getD ⟨0, 0⟩)
  let cold ← match old.cold_water with
    | some r => Except.ok r
    | none => Except.error noCurrentMsg
  let cw_cons := inp.cw.sub cold.current
  let hot ← match old.hot_water with
    | some r => Except.ok r
    | none => Except.error noCurrentMsg
  let hw_cons := inp.hw.sub hot.current
  let wd_cons := cw_cons.add hw_cons
  let elec ← match old.electricity with
    | some r => Except.ok r
    | none => Except.error noCurrentMsg
  let el_cons := inp.el.sub elec.current
  let cw_amt := (cw_cons.mul cw_rate).round2
  let hw_amt := (hw_cons.mul hw_rate).round2
  let wd_amt := (wd_cons.mul wd_rate).round2
  let el_amt := (el_cons.mul el_rate).round2
  let total := (((cw_amt.add hw_amt).add wd_amt).add el_amt).round2
  pure ⟨cw_rate, hw_rate, el_rate, wd_rate, cw_cons, hw_cons, wd_cons,
    el_cons, cw_amt, hw_amt, wd_amt, el_amt, total⟩

/-- Zero-padded numeral of width `k` (`%02d` / `%04d`). -/
def padNat (k n : Nat) : List Char := padZeros k (natChars n)

/-- `datetime.now().strftime("%d.%m.%Y")` for the model date. -/
def renderDate (dt : DateDMY) : List Char :=
  padNat 2 dt.day ++ '.' :: padNat 2 dt.month ++ '.' :: padNat 4 dt.year

/-- The f-string of `_build_message`. -/
def renderReport (coldCur hotCur elecCur : Dec) (inp : InputData)
    (res : CalcResult) (dt : DateDMY) : List Char :=
  ("Хол. вода:\nБыло - ").data ++ coldCur.toChars
    ++ ("\nСтало - ").data ++ inp.cw.toChars ++ ("\n\n").data
    ++ res.cw_cons.toChars ++ (" * ").data ++ res.cw_rate.toChars
    ++ (" = ").data ++ res.cw_amt.toChars ++ ("\n\n").data
    ++ ("Гор. вода:\nБыло - ").data ++ hotCur.toChars
    ++ ("\nСтало - ").data ++ inp.hw.toChars ++ ("\n\n").data
    ++ res.hw_cons.toChars ++ (" * ").data ++ res.hw_rate.toChars
    ++ (" = ").data ++ res.hw_amt.toChars ++ ("\n\n").data
    ++ ("Водоотведение:\n").data
    ++ res.wd_cons.toChars ++ (" * ").data ++ res.wd_rate.toChars
    ++ (" = ").data ++ res.wd_amt.toChars ++ ("\n\n").data
    ++ ("Электроэнергия:\nБыло - ").data ++ elecCur.toChars
    ++ ("\nСтало - ").data ++ inp.el.toChars ++ ("\n\n").data
    ++ res.el_cons.toChars ++ (" * ").data ++ res.el_rate.toChars
    ++ (" = ").data ++ res.el_amt.toChars ++ ("\n\n").data
    ++ ("Итого: ").data ++ res.total.toChars ++ ("\n\n").data
    ++ ("#счетчики ").data ++ renderDate dt

/-- `_build_message(old_values, inp)` with the processing date as an
explicit parameter (the source stamps `datetime.now()`).  The `getD`
defaults are unreachable: `computeCalc` only succeeds when the three
metered readings are present. -/
def buildMessage (old : UtilityBill) (inp : InputData) (dt : DateDMY) :
    Except String (List Char) :=
  (computeCalc old inp).map (fun res =>
    renderReport ((old.cold_water.map (fun r => r.current)).getD ⟨0, 0⟩)
      ((old.hot_water.map (fun r => r.current)).getD ⟨0, 0⟩)
      ((old.electricity.map (fun r => r.current)).getD ⟨0, 0⟩) inp res dt)

/-! ## Derived characterization of the calculator -/

/-- The result `computeCalc` produces when the three metered readings
are present (proved as `computeCalc_eq` below). -/
def calcOf (rc rh re2 : UtilityReading) (wd : Option UtilityReading)
    (inp : InputData) : CalcResult :=
  let cw_rate := inp.cw_rate.getD rc.rate
  let hw_rate := inp.hw_rate.getD rh.rate
  let el_rate := inp.el_rate.getD re2.rate
  let wd_rate := match wd with
    | some rd => inp.wd_rate.getD rd.rate
    | none => inp.wd_rate.getD ⟨0, 0⟩
  let cw_cons := inp.cw.sub rc.current
  let hw_cons := inp.hw.sub rh.current
  let wd_cons := cw_cons.add hw_cons
  let el_cons := inp.el.sub re2.current
  let cw_amt := (cw_cons.mul cw_rate).round2
  let hw_amt := (hw_cons.mul hw_rate).round2
  let wd_amt := (wd_cons.mul wd_rate).round2
  let el_amt := (el_cons.mul el_rate).round2
  let total := (((cw_amt.add hw_amt).add wd_amt).add el_amt).round2
  ⟨cw_rate, hw_rate, el_rate, wd_rate, cw_cons, hw_cons, wd_cons,
    el_cons, cw_amt, hw_amt, wd_amt, el_amt, total⟩

/-! ## Concrete example values

The readings of the repository's worked example (the commented test
message in src/parser_old_bill.py). -/

def exCold : UtilityReading := ⟨⟨579, 0⟩, ⟨587, 0⟩, ⟨8, 0⟩, ⟨598, 1⟩, ⟨478, 0⟩⟩

def exHot : UtilityReading := ⟨⟨47, 0⟩, ⟨49, 0⟩, ⟨2, 0⟩, ⟨27214, 2⟩, ⟨54428, 2⟩⟩

def exWd : UtilityReading := ⟨⟨0, 0⟩, ⟨10, 0⟩, ⟨10, 0⟩, ⟨4591, 2⟩, ⟨4591, 1⟩⟩

def exElec : UtilityReading := ⟨⟨7984, 0⟩, ⟨8108, 0⟩, ⟨124, 0⟩, ⟨699, 2⟩, ⟨86676, 2⟩⟩

def exOld : UtilityBill :=
  ⟨some exCold, some exHot, some exWd, some exElec, ⟨234814, 2⟩, ⟨22, 6, 2025⟩⟩

def exOldNoCold : UtilityBill :=
  ⟨none, some exHot, some exWd, some exElec, ⟨234814, 2⟩, ⟨22, 6, 2025⟩⟩

def exOldNoElec : UtilityBill :=
  ⟨some exCold, some exHot, some exWd, none, ⟨234814, 2⟩, ⟨22, 6, 2025⟩⟩

def exOldNoWd : UtilityBill :=
  ⟨some exCold, some exHot, none, some exElec, ⟨234814, 2⟩, ⟨22, 6, 2025⟩⟩

def exInp : InputData := { cw := ⟨600, 0⟩, hw := ⟨52, 0⟩, el := ⟨8200, 0⟩ }

/-- New cold-water reading below the old one: negative consumption. -/
def exInpNeg : InputData := { cw := ⟨500, 0⟩, hw := ⟨52, 0⟩, el := ⟨8200, 0⟩ }

def exRes : CalcResult := calcOf exCold exHot exElec (some exWd) exInp

def exResNeg : CalcResult := calcOf exCold exHot exElec (some exWd) exInpNeg

/-! ## Concrete texts -/

/-- The repository's example old-bill text (the commented test message
in src/parser_old_bill.py). -/
def exMsg : List Char :=
  ("Хол. вода:\nБыло - 579\nСтало - 587\n\n8 * 59,8 = 478\n\nГор. вода:\nБыло - 47\nСтало - 49\n\n2 * 272,14 = 544,28\n\nВодоотведение:\n10 * 45,91 = 459,1\n\nЭлектроэнергия:\nБыло - 7984\nСтало - 8108\n\n124 * 6,99 = 866,76\n\nИтого: 2348,14\n\n#счетчики 22.06.2025").data

/-- The example text with the cold-water section removed entirely. -/
def noColdSectionMsg : List Char :=
  ("Гор. вода:\nБыло - 47\nСтало - 49\n\n2 * 272,14 = 544,28\n\nВодоотведение:\n10 * 45,91 = 459,1\n\nЭлектроэнергия:\nБыло - 7984\nСтало - 8108\n\n124 * 6,99 = 866,76\n\nИтого: 2348,14\n\n#счетчики 22.06.2025").data

/-- The example text with a malformed rate group (59,8,2) inside the
present cold-water section. -/
def malformedColdMsg : List Char :=
  ("Хол. вода:\nБыло - 579\nСтало - 587\n\n8 * 59,8,2 = 478\n\nГор. вода:\nБыло - 47\nСтало - 49\n\n2 * 272,14 = 544,28\n\nВодоотведение:\n10 * 45,91 = 459,1\n\nЭлектроэнергия:\nБыло - 7984\nСтало - 8108\n\n124 * 6,99 = 866,76\n\nИтого: 2348,14\n\n#счетчики 22.06.2025").data

/-- The example text with a fractional current cold-water reading. -/
def fracCurrentMsg : List Char :=
  ("Хол. вода:\nБыло - 579\nСтало - 587.5\n\n8 * 59,8 = 478\n\nГор. вода:\nБыло - 47\nСтало - 49\n\n2 * 272,14 = 544,28\n\nВодоотведение:\n10 * 45,91 = 459,1\n\nЭлектроэнергия:\nБыло - 7984\nСтало - 8108\n\n124 * 6,99 = 866,76\n\nИтого: 2348,14\n\n#счетчики 22.06.2025").data

/-- A cold-water section and a date, but no total line. -/
def noTotalMsg : List Char :=
  ("Хол. вода:\nБыло - 579\nСтало - 587\n\n8 * 59,8 = 478\n\n#счетчики 22.06.2025").data

/-- A total but no date line. -/
def noDateMsg : List Char := ("Итого: 100").data

/-- Total and date present, no utility sections at all. -/
def noSectionsMsg : List Char := ("Итого: 100\n\n#счетчики 22.06.2025").data

/-- The report produced for the negative-consumption input. -/
def c5msg : List Char :=
  match buildMessage exOld exInpNeg ⟨1, 7, 2025⟩ with
  | Except.ok s => s
  | Except.error _ => []

/-- A payload whose rate pair precedes the positional trio. -/
def c6payload : List Char := ("hw_rate=275 587 49 8108").data

/-- The spec's own Grammar-B example payload. -/
def c6specPayload : List Char := ("587 49 8108 hw_rate=275").data

/-- A Grammar-B payload with an unrecognized key=value pair. -/
def c7payload : List Char := ("587 49 8108 foo=4").data

/-! ## Token-shape predicates (used by the round-trip lemmas) -/

/-- A nonempty all-digit token. -/
def digitsOnly (t : List Char) : Prop :=
  t ≠ [] ∧ ∀ c ∈ t, isDig c = true

/-- The shape of tokens the pattern `\d+(?:[.,]\d+)?` captures when
rendered with a dot. -/
def numTok (t : List Char) : Prop :=
  digitsOnly t ∨ ∃ I F, t = I ++ '.' :: F ∧ digitsOnly I ∧ digitsOnly F

/-- The head of the list (if any) does not satisfy `p`. -/
def headNot (p : Char → Bool) : List Char → Prop
  | [] => True
  | c :: _ => p c = false

/-- All match attempts strictly inside `xs` fail, so a search may skip
over it. -/
def skips {α : Type} (f : List Char → Option α) (xs : List Char) : Prop :=
  ∀ r, searchFrom f (xs ++ r) = searchFrom f r

/-! ## Canonical shape of a normalized report

The whitespace-normalized report is the nesting of these six section
shapes; `pyNormalize` of a rendered report is proved to take this
form. -/

def nmMeterTail (P N C R A rest : List Char) : List Char :=
  P ++ ' ' :: (("Стало - ").data ++ (N ++ ' ' :: (C ++ ' ' ::
    (("* ").data ++ (R ++ ' ' :: (("= ").data ++ (A ++ ' ' :: rest)))))))

def nmCold (P N C R A rest : List Char) : List Char :=
  ("Хол. вода: Было - ").data ++ nmMeterTail P N C R A rest

def nmHot (P N C R A rest : List Char) : List Char :=
  ("Гор. вода: Было - ").data ++ nmMeterTail P N C R A rest

def nmElec (P N C R A rest : List Char) : List Char :=
  ("Электроэнергия: Было - ").data ++ nmMeterTail P N C R A rest

def nmWd (C R A rest : List Char) : List Char :=
  ("Водоотведение: ").data ++ (C ++ ' ' ::
    (("* ").data ++ (R ++ ' ' :: (("= ").data ++ (A ++ ' ' :: rest)))))

def nmTotal (T rest : List Char) : List Char :=
  ("Итого: ").data ++ (T ++ ' ' :: rest)

def nmDate (D : List Char) : List Char :=
  ("#счетчики ").data ++ D


/-- The bill that re-parsing a rendered report recovers: the four
readings as displayed (water disposal with zero `previous` and the
synthesized consumption sum as `current`), the displayed total, and
the report date. -/
def rtBill (rc rh re2 : UtilityReading) (inp : InputData) (res : CalcResult)
    (dt : DateDMY) : UtilityBill :=
  ⟨some ⟨rc.current, inp.cw, res.cw_cons, res.cw_rate, res.cw_amt⟩,
    some ⟨rh.current, inp.hw, res.hw_cons, res.hw_rate, res.hw_amt⟩,
    some ⟨⟨0, 0⟩, Dec.add (Dec.add ⟨0, 0⟩ res.cw_cons) res.hw_cons,
      res.wd_cons, res.wd_rate, res.wd_amt⟩,
    some ⟨re2.current, inp.el, res.el_cons, res.el_rate, res.el_amt⟩,
    res.total, dt⟩

/-! ## Theorems -/

theorem int_shift_div (m : Int) (s t : Nat) (h : s ≤ t) :
    ((m * 10 ^ (t - s) : Int) : ℚ) / 10 ^ t = (m : ℚ) / 10 ^ s := by
  have h10 : (10 : ℚ) ^ t = 10 ^ (t - s) * 10 ^ s := by
    rw [← pow_add]
    congr 1
    omega
  rw [h10]
  push_cast
  have hs : (10 : ℚ) ^ s ≠ 0 := pow_ne_zero _ (by norm_num)
  have hts : (10 : ℚ) ^ (t - s) ≠ 0 := pow_ne_zero _ (by norm_num)
  field_simp
  ring

theorem Dec.val_add (a b : Dec) : (a.add b).val = a.val + b.val := by
  unfold Dec.add Dec.val
  simp only
  rw [Int.cast_add, add_div,
    int_shift_div a.m a.s (max a.s b.s) (le_max_left _ _),
    int_shift_div b.m b.s (max a.s b.s) (le_max_right _ _)]

theorem Dec.val_sub (a b : Dec) : (a.sub b).val = a.val - b.val := by
  unfold Dec.sub Dec.val
  simp only
  rw [Int.cast_sub, sub_div,
    int_shift_div a.m a.s (max a.s b.s) (le_max_left _ _),
    int_shift_div b.m b.s (max a.s b.s) (le_max_right _ _)]

theorem Dec.val_mul (a b : Dec) : (a.mul b).val = a.val * b.val := by
  unfold Dec.mul Dec.val
  simp only
  rw [pow_add]
  push_cast
  field_simp

theorem nat_floor_div (n k : Nat) (hk : 0 < k) :
    ⌊(n : ℚ) / (k : ℚ)⌋ = ((n / k : Nat) : Int) := by
  have hkq : (0 : ℚ) < (k : ℚ) := by exact_mod_cast hk
  rw [Int.floor_eq_iff]
  constructor
  · rw [le_div_iff₀ hkq]
    have h1 : (n / k) * k ≤ n := Nat.div_mul_le_self n k
    push_cast
    exact_mod_cast h1
  · rw [div_lt_iff₀ hkq]
    have h2 : n < (n / k + 1) * k := by
      have := Nat.div_add_mod n k
      have := Nat.mod_lt n hk
      nlinarith
    push_cast
    exact_mod_cast h2

theorem halfAwayDiv_eq (a : Int) (b : Nat) (hb : 0 < b) :
    halfAwayDiv a b = roundHalfAwayInt ((a : ℚ) / (b : ℚ)) := by
  have hbq : (0 : ℚ) < (b : ℚ) := by exact_mod_cast hb
  have key : ∀ n : Nat, ⌊(n : ℚ) / (b : ℚ) + 1 / 2⌋ = (((2 * n + b) / (2 * b) : Nat) : Int) := by
    intro n
    have heq : (n : ℚ) / (b : ℚ) + 1 / 2 = ((2 * n + b : Nat) : ℚ) / ((2 * b : Nat) : ℚ) := by
      push_cast
      field_simp
      ring
    rw [heq, nat_floor_div _ _ (by omega)]
  unfold halfAwayDiv roundHalfAwayInt
  by_cases ha : 0 ≤ a
  · have hnn : (0 : ℚ) ≤ (a : ℚ) / (b : ℚ) := by
      apply div_nonneg _ (le_of_lt hbq)
      exact_mod_cast ha
    rw [if_pos ha, if_pos hnn]
    have hna : ((a.natAbs : Nat) : ℚ) = (a : ℚ) := by
      rw [Int.cast_natAbs]
      exact_mod_cast abs_of_nonneg ha
    rw [← hna, key]
  · push_neg at ha
    have hneg : ¬ (0 : ℚ) ≤ (a : ℚ) / (b : ℚ) := by
      rw [not_le]
      apply div_neg_of_neg_of_pos _ hbq
      exact_mod_cast ha
    rw [if_neg (by omega), if_neg hneg]
    have hna : ((a.natAbs : Nat) : ℚ) = -(a : ℚ) := by
      rw [Int.cast_natAbs]
      exact_mod_cast abs_of_neg ha
    rw [← neg_div, ← hna, key]

/-- `_round` computes exactly the spec's "round half away from zero at
two decimal places". -/
theorem Dec.val_round2 (d : Dec) : (d.round2).val = roundHalfAway2 d.val := by
  unfold Dec.round2 roundHalfAway2 Dec.val
  by_cases h : d.s ≤ 2
  · rw [if_pos h]
    simp only
    have hmul : (d.m : ℚ) / 10 ^ d.s * 100 = ((d.m * 10 ^ (2 - d.s) : Int) : ℚ) := by
      push_cast
      have hs : (10 : ℚ) ^ d.s ≠ 0 := pow_ne_zero _ (by norm_num)
      field_simp
      rw [mul_assoc, ← pow_add, show 2 - d.s + d.s = 2 by omega]
      norm_num
    rw [hmul]
    have hint : ∀ z : Int, roundHalfAwayInt ((z : Int) : ℚ) = z := by
      intro z
      unfold roundHalfAwayInt
      by_cases hz : 0 ≤ z
      · rw [if_pos (by exact_mod_cast hz)]
        rw [show ((z : Int) : ℚ) + 1 / 2 = (z : ℚ) + 1 / 2 by norm_num,
          Int.floor_int_add]
        norm_num
      · push_neg at hz
        rw [if_neg (by
          rw [not_le]
          exact_mod_cast hz)]
        rw [show -((z : Int) : ℚ) + 1 / 2 = ((-z : Int) : ℚ) + 1 / 2 by push_cast; ring,
          Int.floor_int_add]
        norm_num
    rw [hint]
    norm_num
  · rw [if_neg h]
    simp only
    have hb : 0 < 10 ^ (d.s - 2) := Nat.pos_pow_of_pos _ (by norm_num)
    rw [halfAwayDiv_eq _ _ hb]
    have h10 : (10 : ℚ) ^ d.s = ((10 ^ (d.s - 2) : Nat) : ℚ) * 100 := by
      push_cast
      rw [show (100 : ℚ) = 10 ^ 2 by norm_num, ← pow_add,
        show d.s - 2 + 2 = d.s by omega]
    have hne : ((10 ^ (d.s - 2) : Nat) : ℚ) ≠ 0 := by positivity
    have harg : (d.m : ℚ) / 10 ^ d.s * 100 = (d.m : ℚ) / ((10 ^ (d.s - 2) : Nat) : ℚ) := by
      rw [h10]
      field_simp
      ring
    rw [harg]
    norm_num

theorem except_bind_ok {α β ε : Type} (a : α) (f : α → Except ε β) :
    (Except.ok a >>= f) = f a := rfl

theorem except_bind_err {α β ε : Type} (e : ε) (f : α → Except ε β) :
    ((Except.error e : Except ε α) >>= f) = Except.error e := rfl

theorem except_pure {α ε : Type} (a : α) :
    (pure a : Except ε α) = Except.ok a := rfl

/-- When the three metered readings are present, the calculation
succeeds and produces exactly `calcOf`. -/
theorem computeCalc_eq (old : UtilityBill) (inp : InputData)
    (rc rh re2 : UtilityReading) (hc : old.cold_water = some rc)
    (hh : old.hot_water = some rh) (he : old.electricity = some re2) :
    computeCalc old inp = Except.ok (calcOf rc rh re2 old.water_disposal inp) := by
  unfold computeCalc getRate calcOf
  rw [hc, hh, he]
  rcases inp.cw_rate with _ | v1 <;> rcases inp.hw_rate with _ | v2 <;>
    rcases inp.el_rate with _ | v3 <;> rcases inp.wd_rate with _ | v4 <;>
    rcases old.water_disposal with _ | rwd <;> rfl

set_option maxHeartbeats 1600000 in
/-- A successful calculation implies the three metered readings are
present. -/
theorem computeCalc_ok_some (old : UtilityBill) (inp : InputData) (res : CalcResult)
    (h : computeCalc old inp = Except.ok res) :
    ∃ rc rh re2, old.cold_water = some rc ∧ old.hot_water = some rh ∧
      old.electricity = some re2 := by
  revert h
  unfold computeCalc getRate
  rcases inp.cw_rate with _ | v1 <;> rcases inp.hw_rate with _ | v2 <;>
    rcases inp.el_rate with _ | v3 <;> rcases inp.wd_rate with _ | v4 <;>
    rcases old.water_disposal with _ | rwd <;>
    rcases old.cold_water with _ | rc <;>
    rcases old.hot_water with _ | rh <;>
    rcases old.electricity with _ | re2 <;>
    intro h <;>
    first
      | exact ⟨rc, rh, re2, rfl, rfl, rfl⟩
      | exact Except.noConfusion h

/-- A successful calculation identifies the result as `calcOf`. -/
theorem computeCalc_ok_inv (old : UtilityBill) (inp : InputData) (res : CalcResult)
    (h : computeCalc old inp = Except.ok res) :
    ∃ rc rh re2, old.cold_water = some rc ∧ old.hot_water = some rh ∧
      old.electricity = some re2 ∧ res = calcOf rc rh re2 old.water_disposal inp := by
  obtain ⟨rc, rh, re2, hc, hh, he⟩ := computeCalc_ok_some old inp res h
  rw [computeCalc_eq old inp rc rh re2 hc hh he] at h
  exact ⟨rc, rh, re2, hc, hh, he, (Except.ok.inj h).symm⟩

/-- Quantizing a zero coefficient gives exactly `0.00`. -/
theorem round2_zero (s : Nat) : Dec.round2 ⟨0, s⟩ = ⟨0, 2⟩ := by
  unfold Dec.round2
  by_cases h : s ≤ 2
  · simp [h]
  · rw [if_neg (by simpa using h)]
    have hb : 0 < 10 ^ (s - 2) := Nat.pos_pow_of_pos _ (by norm_num)
    have hq : halfAwayDiv 0 (10 ^ (s - 2)) = 0 := by
      unfold halfAwayDiv
      simp [Nat.div_eq_of_lt (by omega : 10 ^ (s - 2) < 2 * 10 ^ (s - 2))]
    rw [hq]

/-- C1: for every old bill and reading input whose calculation
succeeds, each utility's amount equals consumption × resolved rate
rounded half away from zero at two decimal places, and the grand total
equals the sum of the four already-rounded amounts, itself rounded
half away from zero at two decimal places (not a separately rounded
raw sum); in particular consumption 8 at rate 59.8 yields amount
478.40. -/
theorem claim_C1 (old : UtilityBill) (inp : InputData) (res : CalcResult)
    (h : computeCalc old inp = Except.ok res) :
    res.cw_amt.val = roundHalfAway2 (res.cw_cons.val * res.cw_rate.val) ∧
    res.hw_amt.val = roundHalfAway2 (res.hw_cons.val * res.hw_rate.val) ∧
    res.wd_amt.val = roundHalfAway2 (res.wd_cons.val * res.wd_rate.val) ∧
    res.el_amt.val = roundHalfAway2 (res.el_cons.val * res.el_rate.val) ∧
    res.total.val =
      roundHalfAway2 (res.cw_amt.val + res.hw_amt.val + res.wd_amt.val + res.el_amt.val) ∧
    ((⟨8, 0⟩ : Dec).mul ⟨598, 1⟩).round2 = ⟨47840, 2⟩ ∧
    (⟨47840, 2⟩ : Dec).val = 478.40 := by
  obtain ⟨rc, rh, re2, -, -, -, hres⟩ := computeCalc_ok_inv old inp res h
  subst hres
  refine ⟨?_, ?_, ?_, ?_, ?_, rfl, by norm_num [Dec.val]⟩
  · simp only [calcOf]
    rw [Dec.val_round2, Dec.val_mul]
  · simp only [calcOf]
    rw [Dec.val_round2, Dec.val_mul]
  · simp only [calcOf]
    rw [Dec.val_round2, Dec.val_mul]
  · simp only [calcOf]
    rw [Dec.val_round2, Dec.val_mul]
  · simp only [calcOf]
    rw [Dec.val_round2, Dec.val_add, Dec.val_add, Dec.val_add]

theorem claim_C1_witness :
    computeCalc exOld exInp = Except.ok exRes ∧
    exRes.cw_amt.val = roundHalfAway2 (exRes.cw_cons.val * exRes.cw_rate.val) :=
  ⟨rfl, (claim_C1 exOld exInp exRes rfl).1⟩

/-- C2 (amended): for cold water, hot water and electricity the
resolved rate is the override when supplied and otherwise the rate of
the old reading; when the old reading is missing and no override is
given the calculation fails, but with one fixed missing-rate message
that does not name the utility (the same text for every utility). -/
theorem claim_C2 :
    (∀ (r : Dec) (f : Option UtilityReading), getRate (some r) f = Except.ok r) ∧
    (∀ rd : UtilityReading, getRate none (some rd) = Except.ok rd.rate) ∧
    (∀ (old : UtilityBill) (inp : InputData), old.cold_water = none →
      inp.cw_rate = none → computeCalc old inp = Except.error missingRateMsg) ∧
    (∀ (old : UtilityBill) (inp : InputData) (rc rh : UtilityReading),
      old.cold_water = some rc → old.hot_water = some rh →
      old.electricity = none → inp.el_rate = none →
      computeCalc old inp = Except.error missingRateMsg) := by
  refine ⟨fun r f => rfl, fun rd => rfl, ?_, ?_⟩
  · intro old inp h1 h2
    unfold computeCalc getRate
    rw [h1, h2]
    rfl
  · intro old inp rc rh hc hh he4 hel
    unfold computeCalc getRate
    rw [hc, hh, he4, hel]
    rcases inp.cw_rate with _ | v1 <;> rcases inp.hw_rate with _ | v2 <;> rfl

/-- C2 counterexample: the missing-rate failure carries one fixed
message — the cold-water case and the electricity case produce the
identical error text, which therefore does not name the failing
utility. -/
theorem claim_C2_counterexample :
    computeCalc exOldNoCold exInp = Except.error missingRateMsg ∧
    computeCalc exOldNoElec exInp = Except.error missingRateMsg ∧
    missingRateMsg =
      "Отсутствует тариф (rate) в старом сообщении, и он не указан в команде." :=
  ⟨rfl, rfl, rfl⟩

theorem claim_C2_witness :
    getRate (some ⟨275, 0⟩) (some exHot) = Except.ok ⟨275, 0⟩ ∧
    getRate none (some exHot) = Except.ok exHot.rate ∧
    computeCalc exOldNoCold exInp = Except.error missingRateMsg :=
  ⟨claim_C2.1 ⟨275, 0⟩ (some exHot), claim_C2.2.1 exHot,
    claim_C2.2.2.1 exOldNoCold exInp rfl rfl⟩

/-- C3: when the old bill has no water-disposal reading (the three
metered readings being present, so that the calculation reaches the
disposal step), the calculation succeeds rather than failing, the
resolved disposal rate is the wd_rate override if given and zero
otherwise, and with no override the disposal amount is exactly 0.00. -/
theorem claim_C3 (old : UtilityBill) (inp : InputData)
    (rc rh re2 : UtilityReading) (hc : old.cold_water = some rc)
    (hh : old.hot_water = some rh) (he : old.electricity = some re2)
    (hwd : old.water_disposal = none) :
    ∃ res, computeCalc old inp = Except.ok res ∧
      res.wd_rate = inp.wd_rate.getD ⟨0, 0⟩ ∧
      (inp.wd_rate = none → res.wd_rate = ⟨0, 0⟩ ∧ res.wd_amt = ⟨0, 2⟩ ∧
        res.wd_amt.toChars = ("0.00").data) := by
  refine ⟨calcOf rc rh re2 old.water_disposal inp,
    computeCalc_eq old inp rc rh re2 hc hh he, ?_, ?_⟩
  · rw [hwd]
    simp [calcOf]
  · intro hno
    rw [hwd]
    have h2 : (calcOf rc rh re2 none inp).wd_amt = ⟨0, 2⟩ := by
      have hm : ∀ d : Dec, d.mul ⟨0, 0⟩ = ⟨0, d.s⟩ := by
        intro d
        simp [Dec.mul]
      simp only [calcOf, hno, Option.getD_none, hm]
      exact round2_zero _
    refine ⟨by simp [calcOf, hno], h2, by rw [h2]; rfl⟩

theorem claim_C3_witness :
    ∃ res, computeCalc exOldNoWd exInp = Except.ok res ∧
      res.wd_rate = exInp.wd_rate.getD ⟨0, 0⟩ ∧
      (exInp.wd_rate = none → res.wd_rate = ⟨0, 0⟩ ∧ res.wd_amt = ⟨0, 2⟩ ∧
        res.wd_amt.toChars = ("0.00").data) :=
  claim_C3 exOldNoWd exInp exCold exHot exElec rfl rfl rfl rfl

/-- C4: for every successful calculation, cold/hot/electricity
consumption are the differences between the new readings and the old
current readings, water-disposal consumption is the sum of the two
water consumptions, and no sign condition is imposed (a negative
consumption is computed and propagated; see the witness). -/
theorem claim_C4 (old : UtilityBill) (inp : InputData) (res : CalcResult)
    (h : computeCalc old inp = Except.ok res) :
    ∃ rc rh re2, old.cold_water = some rc ∧ old.hot_water = some rh ∧
      old.electricity = some re2 ∧
      res.cw_cons.val = inp.cw.val - rc.current.val ∧
      res.hw_cons.val = inp.hw.val - rh.current.val ∧
      res.el_cons.val = inp.el.val - re2.current.val ∧
      res.wd_cons.val = res.cw_cons.val + res.hw_cons.val := by
  obtain ⟨rc, rh, re2, hc, hh, he, hres⟩ := computeCalc_ok_inv old inp res h
  subst hres
  refine ⟨rc, rh, re2, hc, hh, he, ?_, ?_, ?_, ?_⟩ <;>
    simp [calcOf, Dec.val_sub, Dec.val_add]

theorem claim_C4_witness :
    computeCalc exOld exInpNeg = Except.ok exResNeg ∧
    exResNeg.cw_cons.val = exInpNeg.cw.val - exCold.current.val ∧
    exResNeg.cw_cons.val < 0 := by
  obtain ⟨rc, rh, re2, hc, hh, he, h1, -, -, -⟩ :=
    claim_C4 exOld exInpNeg exResNeg rfl
  have hrc : exCold = rc := by
    have h3 : some exCold = some rc := hc
    exact Option.some.inj h3
  have hcons : exResNeg.cw_cons = ⟨-87, 0⟩ := rfl
  refine ⟨rfl, ?_, by rw [hcons]; norm_num [Dec.val]⟩
  rw [hrc]
  exact h1

/-- C5 counterexample: a calculation with negative cold-water
consumption produces a report string whose re-parse does not succeed:
the negative total does not match the total pattern, so the Old-Bill
Parser raises the missing-total error. -/
theorem claim_C5_counterexample :
    buildMessage exOld exInpNeg ⟨1, 7, 2025⟩ = Except.ok c5msg ∧
    parse_message c5msg = Except.error (ParseErr.valueError totalMsg) :=
  ⟨rfl, rfl⟩

/-- C6 counterexample: with a rate pair placed before the trio, the
positional scan takes the rate's number as the first token, so cw
receives 275 and the genuine third reading 8108 is dropped — numbers
inside key=value rate pairs are taken as the trio. -/
theorem claim_C6_counterexample :
    parseCore c6payload =
      Except.ok { cw := ⟨275, 0⟩, hw := ⟨587, 0⟩, el := ⟨49, 0⟩,
                  hw_rate := some ⟨275, 0⟩ } := rfl

/-- C6 (amended): when Grammar A does not apply, the parser assigns
the first three numeric tokens found anywhere in the payload —
including numbers inside key=value rate pairs — to cw, hw and el in
order, attaches the *_rate pairs found anywhere in the payload, and
fails with the message naming both accepted formats when fewer than
three numeric tokens exist; the spec's own example payload still
parses as stated. -/
theorem claim_C6 (payload : List Char) (hA : grammarAApplies payload = false) :
    (∀ a b c rest, findNums payload = a :: b :: c :: rest →
      parseCore payload =
        buildInputB (charsToDec (normDec a)) (charsToDec (normDec b))
          (charsToDec (normDec c)) (pairsDict (findRatePairs payload))) ∧
    ((findNums payload).length < 3 → parseCore payload = Except.error cmdErrMsg) ∧
    parseCore c6specPayload =
      Except.ok { cw := ⟨587, 0⟩, hw := ⟨49, 0⟩, el := ⟨8108, 0⟩,
                  hw_rate := some ⟨275, 0⟩ } := by
  refine ⟨?_, ?_, rfl⟩
  · intro a b c rest hnums
    unfold parseCore
    rw [hA, hnums]
    rfl
  · intro hlt
    unfold parseCore
    rcases hn : findNums payload with _ | ⟨a, _ | ⟨b, _ | ⟨c, rest⟩⟩⟩ <;>
      rw [hA] <;>
      first
        | rfl
        | (exfalso
           rw [hn] at hlt
           simp at hlt
           omega)

theorem claim_C6_witness :
    grammarAApplies c6payload = false ∧
    findNums c6payload =
      ("275").data :: ("587").data :: ("49").data :: [("8108").data] ∧
    parseCore c6payload =
      buildInputB (charsToDec (normDec (("275").data)))
        (charsToDec (normDec (("587").data)))
        (charsToDec (normDec (("49").data)))
        (pairsDict (findRatePairs c6payload)) :=
  ⟨rfl, rfl, (claim_C6 c6payload rfl).1 (("275").data) (("587").data)
    (("49").data) [("8108").data] rfl⟩

/-- C7 counterexample: the payload carries the unrecognized key foo
as a key=value pair, yet parsing succeeds via Grammar B and silently
ignores it. -/
theorem claim_C7_counterexample :
    findPairs c7payload = [(("foo").data, ("4").data)] ∧
    parseCore c7payload =
      Except.ok { cw := ⟨587, 0⟩, hw := ⟨49, 0⟩, el := ⟨8108, 0⟩ } :=
  ⟨rfl, rfl⟩

/-- C7 (amended): unknown keys reject the input only on the paths that
reach pydantic validation: under Grammar A any unrecognized key among
the keyed pairs rejects the whole input, and under Grammar B any
collected *_rate pair with an unrecognized name rejects the whole
input; other unknown key=value pairs of a Grammar-B payload are
silently ignored. -/
theorem claim_C7 :
    (∀ payload, grammarAApplies payload = true →
      (pairsDict (findPairs payload)).all
        (fun p => allowedKeys.contains p.1) = false →
      parseCore payload = Except.error extraForbiddenMsg) ∧
    (∀ payload a b c rest, grammarAApplies payload = false →
      findNums payload = a :: b :: c :: rest →
      (pairsDict (findRatePairs payload)).all
        (fun p => (["cw_rate", "hw_rate", "wd_rate", "el_rate"] :
          List String).contains p.1) = false →
      parseCore payload = Except.error extraForbiddenMsg) := by
  constructor
  · intro payload hA hbad
    unfold parseCore modelValidate
    rw [hA, hbad]
    rfl
  · intro payload a b c rest hA hnums hbad
    unfold parseCore buildInputB
    rw [hA, hnums, hbad]
    rfl

theorem claim_C7_witness :
    parseCore (("cw=1 hw=2 el=3 foo=4").data) = Except.error extraForbiddenMsg ∧
    parseCore (("587 49 8108 foo_rate=5").data) = Except.error extraForbiddenMsg :=
  ⟨claim_C7.1 (("cw=1 hw=2 el=3 foo=4").data) rfl rfl,
    claim_C7.2 (("587 49 8108 foo_rate=5").data) (("587").data) (("49").data)
      (("8108").data) [("5").data] rfl rfl rfl⟩

/-- `assembleBill` succeeds only with all four readings present, and
the resulting bill carries them. -/
theorem assembleBill_ok (c h2 w e : Option UtilityReading) (t : Dec)
    (dt : DateDMY) (b : UtilityBill)
    (hab : assembleBill c h2 w e t dt = Except.ok b) :
    b.cold_water.isSome ∧ b.hot_water.isSome ∧ b.water_disposal.isSome ∧
      b.electricity.isSome := by
  rcases c with _ | c <;> rcases h2 with _ | h2 <;> rcases w with _ | w <;>
    rcases e with _ | e <;> simp [assembleBill] at hab <;> simp [← hab]

/-- C8 (amended): the parser never silently omits a utility from a
successfully parsed bill — every success carries all four readings —
but a present-yet-malformed numeric group does not produce a
per-section decimal parse error: the section pattern simply fails to
match, and the parse then fails with pydantic's required-field
validation error, exactly as for an entirely absent section. -/
theorem claim_C8 :
    (∀ (msg : List Char) (b : UtilityBill), parse_message msg = Except.ok b →
      b.cold_water.isSome ∧ b.hot_water.isSome ∧
        b.water_disposal.isSome ∧ b.electricity.isSome) ∧
    searchFrom (meterMatch coldLabels) (pyNormalize malformedColdMsg) = none ∧
    parse_message malformedColdMsg =
      Except.error (ParseErr.validationError ["cold_water"]) := by
  refine ⟨?_, rfl, rfl⟩
  intro msg b h
  unfold parse_message parseFrom at h
  split at h
  · exact absurd h (by simp)
  split at h
  · exact absurd h (by simp)
  split at h
  · exact assembleBill_ok _ _ _ _ _ _ b h
  · exact absurd h (by simp)

/-- C8 counterexample: an old bill whose cold-water section is
entirely absent does not yield a bill with an absent optional
reading — bill construction fails with the required-field validation
error. -/
theorem claim_C8_counterexample :
    parse_message noColdSectionMsg =
      Except.error (ParseErr.validationError ["cold_water"]) := rfl

theorem claim_C8_witness :
    parse_message exMsg = Except.ok exOld ∧
    (exOld.cold_water.isSome ∧ exOld.hot_water.isSome ∧
      exOld.water_disposal.isSome ∧ exOld.electricity.isSome) :=
  ⟨rfl, claim_C8.1 exMsg exOld rfl⟩

/-- C9 (code bug): when the total or the date pattern does not match,
parsing fails with the corresponding error message identifying the
missing field, as claimed; but the absence of the utility sections is
not tolerated — with total and date present and all four sections
absent, bill construction fails with pydantic's required-field
validation error instead of yielding a bill with absent readings. -/
theorem claim_C9 :
    parse_message noTotalMsg = Except.error (ParseErr.valueError totalMsg) ∧
    parse_message noDateMsg = Except.error (ParseErr.valueError dateMsg) ∧
    parse_message noSectionsMsg =
      Except.error (ParseErr.validationError
        ["cold_water", "hot_water", "water_disposal", "electricity"]) :=
  ⟨rfl, rfl, rfl⟩

/-- C10 (code bug): the Было/Стало groups accept only unsigned integer
digit strings — a fractional current reading defeats the cold-water
pattern even though the rate in the same section may be a decimal —
but the unmatched section then fails the whole parse with pydantic's
required-field error rather than the reading being reported absent. -/
theorem claim_C10 :
    searchFrom (meterMatch coldLabels) (pyNormalize fracCurrentMsg) = none ∧
    parse_message fracCurrentMsg =
      Except.error (ParseErr.validationError ["cold_water"]) ∧
    parse_message exMsg = Except.ok exOld ∧
    exOld.cold_water.map (fun r => r.rate) = some ⟨598, 1⟩ :=
  ⟨rfl, rfl, rfl, rfl⟩

/-! ### Numeral lemmas -/

theorem char_ne_of_toNat {a b : Char} (h : a.toNat ≠ b.toNat) : a ≠ b :=
  fun he => h (congrArg Char.toNat he)

theorem digCh_toNat (n : Nat) (h : n < 10) : (digCh n).toNat = 48 + n := by
  interval_cases n <;> rfl

theorem isDig_digCh (n : Nat) (h : n < 10) : isDig (digCh n) = true := by
  interval_cases n <;> rfl

theorem isDig_toNat {c : Char} (h : isDig c = true) :
    48 ≤ c.toNat ∧ c.toNat ≤ 57 := by
  simpa [isDig] using h

theorem dig_not_ws {c : Char} (h : isDig c = true) : isWS c = false := by
  obtain ⟨h1, h2⟩ := isDig_toNat h
  have hsp : c ≠ ' ' := char_ne_of_toNat (by simp; omega)
  have hnl : c ≠ '\n' := char_ne_of_toNat (by simp; omega)
  have htb : c ≠ '\t' := char_ne_of_toNat (by simp; omega)
  have hcr : c ≠ '\r' := char_ne_of_toNat (by simp; omega)
  simp [isWS, hsp, hnl, htb, hcr]

theorem digitsToNat_foldl (ds : List Char) (a : Nat) :
    ds.foldl (fun x c => x * 10 + (c.toNat - 48)) a =
      a * 10 ^ ds.length + digitsToNat ds := by
  induction ds generalizing a with
  | nil => simp [digitsToNat]
  | cons c ds ih =>
    simp only [List.foldl_cons, List.length_cons, digitsToNat]
    rw [ih, ih (0 * 10 + (c.toNat - 48))]
    ring

theorem digitsToNat_append (xs ys : List Char) :
    digitsToNat (xs ++ ys) =
      digitsToNat xs * 10 ^ ys.length + digitsToNat ys := by
  unfold digitsToNat
  rw [List.foldl_append]
  rw [show (List.foldl (fun x c => x * 10 + (c.toNat - 48)) 0 xs) = digitsToNat xs from rfl]
  exact digitsToNat_foldl ys (digitsToNat xs)

theorem digitsToNat_replicate_zero (k : Nat) :
    digitsToNat (List.replicate k ('0')) = 0 := by
  induction k with
  | zero => rfl
  | succ k ih =>
    rw [List.replicate_succ', digitsToNat_append, ih]
    rfl

theorem natCharsGo_spec (fuel : Nat) :
    ∀ n, n < fuel → natCharsGo fuel n ≠ [] ∧
      (∀ c ∈ natCharsGo fuel n, isDig c = true) ∧
      digitsToNat (natCharsGo fuel n) = n := by
  induction fuel with
  | zero => intro n hn; omega
  | succ fuel ih =>
    intro n hn
    by_cases h10 : n < 10
    · refine ⟨by simp [natCharsGo, h10], ?_, ?_⟩
      · intro c hc
        simp [natCharsGo, h10] at hc
        subst hc
        exact isDig_digCh n h10
      · simp [natCharsGo, h10, digitsToNat, digCh_toNat n h10]
    · have hd : n / 10 < fuel := by
        have := Nat.div_lt_self (by omega : 0 < n) (by norm_num : 1 < 10)
        omega
      obtain ⟨hne, hdig, hval⟩ := ih (n / 10) hd
      have heq : natCharsGo (fuel + 1) n =
          natCharsGo fuel (n / 10) ++ [digCh (n % 10)] := by
        simp [natCharsGo, h10]
      have hm : n % 10 < 10 := Nat.mod_lt n (by norm_num)
      refine ⟨by simp [heq], ?_, ?_⟩
      · intro c hc
        rw [heq] at hc
        rcases List.mem_append.mp hc with h | h
        · exact hdig c h
        · simp at h
          subst h
          exact isDig_digCh _ hm
      · rw [heq, digitsToNat_append, hval]
        have : digitsToNat [digCh (n % 10)] = n % 10 := by
          simp [digitsToNat, digCh_toNat _ hm]
        rw [this]
        simp
        omega

theorem natChars_spec (n : Nat) :
    natChars n ≠ [] ∧ (∀ c ∈ natChars n, isDig c = true) ∧
      digitsToNat (natChars n) = n :=
  natCharsGo_spec (n + 1) n (by omega)

theorem natChars_digitsOnly (n : Nat) : digitsOnly (natChars n) :=
  ⟨(natChars_spec n).1, (natChars_spec n).2.1⟩

theorem natChars_length_pos (n : Nat) : 1 ≤ (natChars n).length := by
  have h := (natChars_spec n).1
  rcases hn : natChars n with _ | ⟨c, t⟩
  · exact absurd hn h
  · simp

/-- Scales up to 5 always render in fixed point: the coefficient has at
least one digit, so `s < len + 6` holds. -/
theorem fixed_of_small (d : Dec) (h : d.s ≤ 5) :
    d.s < (natChars d.m.natAbs).length + 6 := by
  have := natChars_length_pos d.m.natAbs
  omega

/-! ### Decimal string shape and parse-back -/

theorem takeWhile_all_append (p : Char → Bool) (t r : List Char)
    (ht : ∀ c ∈ t, p c = true) (hr : headNot p r) :
    (t ++ r).takeWhile p = t ∧ (t ++ r).dropWhile p = r := by
  induction t with
  | nil =>
    rcases r with _ | ⟨c, r⟩
    · simp
    · simp only [headNot] at hr
      simp [List.takeWhile, List.dropWhile, hr]
  | cons c t ih =>
    have hc : p c = true := ht c (by simp)
    have ih2 := ih (fun x hx => ht x (by simp [hx]))
    simp [List.takeWhile, List.dropWhile, hc, ih2.1, ih2.2]

theorem digitsOnly_toChars (d : Dec) (h0 : 0 ≤ d.m) (hs : d.s = 0) :
    d.toChars = natChars d.m.natAbs := by
  unfold Dec.toChars
  rw [if_neg (by omega), hs]
  simp

theorem padZeros_length (k : Nat) (ds : List Char) :
    (padZeros k ds).length = max k ds.length := by
  simp [padZeros]
  omega

theorem padZeros_digits (k : Nat) (ds : List Char)
    (h : ∀ c ∈ ds, isDig c = true) :
    ∀ c ∈ padZeros k ds, isDig c = true := by
  intro c hc
  simp [padZeros] at hc
  rcases hc with h1 | h1
  · rw [h1.2]
    rfl
  · exact h c h1

theorem digitsToNat_padZeros (k : Nat) (ds : List Char) :
    digitsToNat (padZeros k ds) = digitsToNat ds := by
  unfold padZeros
  rw [digitsToNat_append, digitsToNat_replicate_zero]
  simp

theorem toChars_frac (d : Dec) (h0 : 0 ≤ d.m) (hs : 0 < d.s)
    (hfp : d.s < (natChars d.m.natAbs).length + 6) :
    ∃ I F, d.toChars = I ++ '.' :: F ∧ digitsOnly I ∧ digitsOnly F ∧
      F.length = d.s ∧
      digitsToNat I * 10 ^ d.s + digitsToNat F = d.m.natAbs := by
  unfold Dec.toChars
  rw [if_neg (by omega), if_neg (by omega), if_pos hfp]
  set a := d.m.natAbs with ha
  set ds := padZeros (d.s + 1) (natChars a) with hds
  have hlen : ds.length = max (d.s + 1) (natChars a).length := padZeros_length _ _
  have hge : d.s + 1 ≤ ds.length := by omega
  have hdig : ∀ c ∈ ds, isDig c = true :=
    padZeros_digits _ _ (natChars_spec a).2.1
  refine ⟨ds.take (ds.length - d.s), ds.drop (ds.length - d.s), rfl, ?_, ?_, ?_, ?_⟩
  · constructor
    · have : (ds.take (ds.length - d.s)).length = ds.length - d.s := by
        rw [List.length_take]
        omega
      intro hnil
      rw [hnil] at this
      simp at this
      omega
    · intro c hc
      exact hdig c (List.mem_of_mem_take hc)
  · constructor
    · have : (ds.drop (ds.length - d.s)).length = d.s := by
        rw [List.length_drop]
        omega
      intro hnil
      rw [hnil] at this
      simp at this
      omega
    · intro c hc
      exact hdig c (List.mem_of_mem_drop hc)
  · rw [List.length_drop]
    omega
  · have hsplit : ds.take (ds.length - d.s) ++ ds.drop (ds.length - d.s) = ds :=
      List.take_append_drop _ _
    have hv : digitsToNat ds = a := by
      rw [hds, digitsToNat_padZeros]
      exact (natChars_spec a).2.2
    have hld : (ds.drop (ds.length - d.s)).length = d.s := by
      rw [List.length_drop]
      omega
    calc digitsToNat (ds.take (ds.length - d.s)) * 10 ^ d.s +
          digitsToNat (ds.drop (ds.length - d.s))
        = digitsToNat (ds.take (ds.length - d.s)) *
            10 ^ (ds.drop (ds.length - d.s)).length +
            digitsToNat (ds.drop (ds.length - d.s)) := by
          rw [hld]
      _ = digitsToNat (ds.take (ds.length - d.s) ++ ds.drop (ds.length - d.s)) :=
          (digitsToNat_append _ _).symm
      _ = a := by rw [hsplit, hv]

theorem numTok_toChars (d : Dec) (h0 : 0 ≤ d.m)
    (hfp : d.s < (natChars d.m.natAbs).length + 6) : numTok d.toChars := by
  by_cases hs : d.s = 0
  · left
    rw [digitsOnly_toChars d h0 hs]
    exact natChars_digitsOnly _
  · right
    obtain ⟨I, F, heq, hI, hF, -, -⟩ := toChars_frac d h0 (by omega) hfp
    exact ⟨I, F, heq, hI, hF⟩

theorem normDec_no_comma (t : List Char) (h : ∀ c ∈ t, (c == ',') = false) :
    normDec t = t := by
  unfold normDec
  induction t with
  | nil => rfl
  | cons c t ih =>
    simp only [List.map_cons, h c (by simp)]
    rw [ih (fun x hx => h x (by simp [hx]))]
    simp [h c (by simp)]

theorem dig_ne_comma {c : Char} (h : isDig c = true) : (c == ',') = false := by
  obtain ⟨h1, h2⟩ := isDig_toNat h
  have : c ≠ ',' := char_ne_of_toNat (by simp; omega)
  simpa using this

theorem normDec_numTok (t : List Char) (h : numTok t) : normDec t = t := by
  apply normDec_no_comma
  rcases h with ⟨-, hd⟩ | ⟨I, F, heq, hI, hF⟩
  · intro c hc
    exact dig_ne_comma (hd c hc)
  · subst heq
    intro c hc
    rcases List.mem_append.mp hc with h1 | h1
    · exact dig_ne_comma (hI.2 c h1)
    · rcases List.mem_cons.mp h1 with h2 | h2
      · rw [h2]
        rfl
      · exact dig_ne_comma (hF.2 c h2)

theorem isDig_dot : isDig ('.') = false := rfl

theorem charsToDec_digits (t : List Char) (ht : digitsOnly t) :
    charsToDec t = ⟨(digitsToNat t : Int), 0⟩ := by
  unfold charsToDec
  have h := takeWhile_all_append isDig t [] ht.2 (by trivial)
  simp only [List.append_nil] at h
  rw [h.1, h.2]

theorem charsToDec_frac (I F : List Char) (hI : digitsOnly I)
    (hF : digitsOnly F) :
    charsToDec (I ++ '.' :: F) =
      ⟨(digitsToNat I * 10 ^ F.length + digitsToNat F : Nat), F.length⟩ := by
  unfold charsToDec
  have h := takeWhile_all_append isDig I ('.' :: F) hI.2 (by simp only [headNot]; rfl)
  rw [h.1, h.2]
  have h2 := takeWhile_all_append isDig F [] hF.2 (by trivial)
  simp only [List.append_nil] at h2
  simp only [h2.1]

/-- Rendering a nonnegative decimal and reading it back through
`_normalize_decimal` restores it exactly. -/
theorem charsToDec_toChars (d : Dec) (h0 : 0 ≤ d.m)
    (hfp : d.s < (natChars d.m.natAbs).length + 6) :
    charsToDec (normDec d.toChars) = d := by
  rw [normDec_numTok _ (numTok_toChars d h0 hfp)]
  by_cases hs : d.s = 0
  · rw [digitsOnly_toChars d h0 hs,
      charsToDec_digits _ (natChars_digitsOnly _), (natChars_spec _).2.2]
    have : (d.m.natAbs : Int) = d.m := Int.natAbs_of_nonneg h0
    cases d
    simp_all
  · obtain ⟨I, F, heq, hI, hF, hFl, hval⟩ := toChars_frac d h0 (by omega) hfp
    rw [heq, charsToDec_frac I F hI hF, hFl, hval]
    have : (d.m.natAbs : Int) = d.m := Int.natAbs_of_nonneg h0
    cases d
    simp_all

/-! ### Token consumption by the matcher primitives -/

theorem isEmpty_false_of_ne {t : List Char} (h : t ≠ []) :
    t.isEmpty = false := by
  rcases t with _ | ⟨c, t⟩
  · exact absurd rfl h
  · rfl

theorem dropWhile_isWS_digits (t r : List Char) (ht : digitsOnly t) :
    List.dropWhile isWS (t ++ r) = t ++ r := by
  obtain ⟨c, t2, rfl⟩ := List.exists_cons_of_ne_nil ht.1
  have hc : isWS c = false := dig_not_ws (ht.2 c (by simp))
  simp [List.dropWhile, hc]

theorem dropWhile_isWS_sp (X : List Char) :
    List.dropWhile isWS (' ' :: X) = List.dropWhile isWS X := by
  simp [List.dropWhile]
  rfl

theorem takeRun_sp (P r : List Char) (hP : digitsOnly P) :
    takeRun (P ++ ' ' :: r) = some (P, ' ' :: r) := by
  unfold takeRun
  have h := takeWhile_all_append isDig P (' ' :: r) hP.2
    (by simp only [headNot]; rfl)
  rw [h.1, h.2]
  dsimp only
  rw [isEmpty_false_of_ne hP.1]
  rfl

theorem takeNum_sp (t r : List Char) (ht : numTok t) :
    takeNum (t ++ ' ' :: r) = some (t, ' ' :: r) := by
  rcases ht with hd | ⟨I, F, rfl, hI, hF⟩
  · unfold takeNum
    have h := takeWhile_all_append isDig t (' ' :: r) hd.2
      (by simp only [headNot]; rfl)
    rw [h.1, h.2]
    dsimp only
    rw [isEmpty_false_of_ne hd.1]
    rcases r with _ | ⟨c2, r⟩ <;> rfl
  · have hassoc : (I ++ '.' :: F) ++ ' ' :: r = I ++ '.' :: (F ++ ' ' :: r) := by
      simp
    rw [hassoc]
    unfold takeNum
    have h := takeWhile_all_append isDig I ('.' :: (F ++ ' ' :: r)) hI.2
      (by simp only [headNot]; rfl)
    rw [h.1, h.2]
    dsimp only
    rw [isEmpty_false_of_ne hI.1]
    obtain ⟨f0, F2, rfl⟩ := List.exists_cons_of_ne_nil hF.1
    have hf0 : isDig f0 = true := hF.2 f0 (by simp)
    have h2 := takeWhile_all_append isDig (f0 :: F2) (' ' :: r)
      hF.2 (by simp only [headNot]; rfl)
    simp only [List.cons_append] at h2
    simp only [List.cons_append, hf0]
    simp [h2.1, h2.2]

theorem headDig_digits (C r : List Char) (hC : digitsOnly C) :
    headDig (C ++ r) = true := by
  obtain ⟨c, C2, rfl⟩ := List.exists_cons_of_ne_nil hC.1
  simp [headDig, hC.2 c (by simp)]

theorem takeTwoNums_sp (N C r : List Char) (hN : digitsOnly N)
    (hC : digitsOnly C) :
    takeTwoNums (N ++ ' ' :: (C ++ ' ' :: r)) = some (N, C, ' ' :: r) := by
  unfold takeTwoNums
  have h := takeWhile_all_append isDig N (' ' :: (C ++ ' ' :: r)) hN.2
    (by simp only [headNot]; rfl)
  rw [h.1, h.2]
  dsimp only
  rw [isEmpty_false_of_ne hN.1]
  rw [dropWhile_isWS_sp, dropWhile_isWS_digits _ _ hC]
  rw [headDig_digits _ _ hC]
  simp only [if_true]
  rw [takeNum_sp _ _ (Or.inl hC)]
  rfl

/-! ### Scale and sign lemmas for the computed values -/

theorem round2_s (d : Dec) : (d.round2).s = 2 := by
  unfold Dec.round2
  split <;> rfl

theorem round2_nonneg (d : Dec) (h : 0 ≤ d.m) : 0 ≤ (d.round2).m := by
  unfold Dec.round2
  split
  · exact mul_nonneg h (by positivity)
  · unfold halfAwayDiv
    rw [if_pos h]
    positivity

theorem sub_zero_s (a b : Dec) (ha : a.s = 0) (hb : b.s = 0) :
    a.sub b = ⟨a.m - b.m, 0⟩ := by
  simp [Dec.sub, ha, hb]

theorem add_zero_s (a b : Dec) (ha : a.s = 0) (hb : b.s = 0) :
    a.add b = ⟨a.m + b.m, 0⟩ := by
  simp [Dec.add, ha, hb]

theorem mul_nonneg_m (a b : Dec) (ha : 0 ≤ a.m) (hb : 0 ≤ b.m) :
    0 ≤ (a.mul b).m := mul_nonneg ha hb

theorem add_nonneg_m (a b : Dec) (ha : 0 ≤ a.m) (hb : 0 ≤ b.m) :
    0 ≤ (a.add b).m := by
  unfold Dec.add
  have h1 : (0:Int) ≤ a.m * 10 ^ (max a.s b.s - a.s) :=
    mul_nonneg ha (by positivity)
  have h2 : (0:Int) ≤ b.m * 10 ^ (max a.s b.s - b.s) :=
    mul_nonneg hb (by positivity)
  simpa using add_nonneg h1 h2

/-! ### Whitespace normalization of rendered text -/

theorem collapse_tok_false (t r : List Char) (ht : ∀ c ∈ t, isWS c = false) :
    collapseWS false (t ++ r) = t ++ collapseWS false r := by
  induction t with
  | nil => rfl
  | cons c t ih =>
    simp only [List.cons_append, collapseWS, ht c (by simp), List.append_eq]
    rw [ih (fun x hx => ht x (by simp [hx]))]
    simp

theorem collapse_tok_true (t r : List Char) (ht0 : t ≠ [])
    (ht : ∀ c ∈ t, isWS c = false) :
    collapseWS true (t ++ r) = ' ' :: (t ++ collapseWS false r) := by
  obtain ⟨c, t2, rfl⟩ := List.exists_cons_of_ne_nil ht0
  simp only [List.cons_append, collapseWS, ht c (by simp), List.append_eq]
  rw [collapse_tok_false t2 r (fun x hx => ht x (by simp [hx]))]
  simp

theorem numTok_not_ws (t : List Char) (h : numTok t) :
    ∀ c ∈ t, isWS c = false := by
  intro c hc
  rcases h with hd | ⟨I, F, rfl, hI, hF⟩
  · exact dig_not_ws (hd.2 c hc)
  · rcases List.mem_append.mp hc with h1 | h1
    · exact dig_not_ws (hI.2 c h1)
    · rcases List.mem_cons.mp h1 with h2 | h2
      · rw [h2]
        rfl
      · exact dig_not_ws (hF.2 c h2)

theorem numTok_ne_nil (t : List Char) (h : numTok t) : t ≠ [] := by
  rcases h with hd | ⟨I, F, rfl, hI, hF⟩
  · exact hd.1
  · simp

theorem numTok_head_dig (t : List Char) (h : numTok t) :
    ∃ c t2, t = c :: t2 ∧ isDig c = true := by
  rcases h with hd | ⟨I, F, heq, hI, hF⟩
  · obtain ⟨c, t2, rfl⟩ := List.exists_cons_of_ne_nil hd.1
    exact ⟨c, t2, rfl, hd.2 c (by simp)⟩
  · obtain ⟨c, I2, rfl⟩ := List.exists_cons_of_ne_nil hI.1
    exact ⟨c, I2 ++ '.' :: F, by simp [heq], hI.2 c (by simp)⟩

theorem digitsOnly_numTok {t : List Char} (h : digitsOnly t) : numTok t :=
  Or.inl h

/-! ### Search skipping -/

theorem searchFrom_cons_none {α : Type} (f : List Char → Option α) (c : Char)
    (t : List Char) (h : f (c :: t) = none) :
    searchFrom f (c :: t) = searchFrom f t := by
  simp [searchFrom, h]

theorem searchFrom_some {α : Type} (f : List Char → Option α) (s : List Char)
    {v : α} (h : f s = some v) : searchFrom f s = some v := by
  rcases s with _ | ⟨c, t⟩ <;> simp [searchFrom, h]

theorem skips_append {α : Type} (f : List Char → Option α) {xs ys : List Char}
    (hx : skips f xs) (hy : skips f ys) : skips f (xs ++ ys) := by
  intro r
  rw [List.append_assoc, hx (ys ++ r), hy r]

theorem skips_cons {α : Type} (f : List Char → Option α) {c : Char}
    {xs : List Char} (h : ∀ r, f (c :: (xs ++ r)) = none) (hs : skips f xs) :
    skips f (c :: xs) := by
  intro r
  rw [List.cons_append, searchFrom_cons_none f c (xs ++ r) (h r), hs r]

theorem skips_of_head_fail {α : Type} (f : List Char → Option α)
    (P : Char → Prop) (hP : ∀ c r, P c → f (c :: r) = none)
    (xs : List Char) (hxs : ∀ c ∈ xs, P c) : skips f xs := by
  induction xs with
  | nil => intro r; rfl
  | cons c t ih =>
    intro r
    rw [List.cons_append,
      searchFrom_cons_none f c (t ++ r) (hP c _ (hxs c (by simp)))]
    exact ih (fun x hx => hxs x (by simp [hx])) r

/-! ### First-character failure of the patterns -/

theorem opt_bind_some {α β : Type} (a : α) (f : α → Option β) :
    (some a >>= f) = f a := rfl

theorem opt_bind_none {α β : Type} (f : α → Option β) :
    ((none : Option α) >>= f) = none := rfl

theorem stripLit_head_ne (p0 : Char) (ps : List Char) (c : Char)
    (cs : List Char) (h : lowEq p0 c = false) :
    stripLit (p0 :: ps) (c :: cs) = none := by
  simp [stripLit, h]

theorem matchLabels_head_none (p0 : Char) (ps : List Char)
    (ls : List (List Char)) (c : Char) (r : List Char)
    (h : lowEq p0 c = false) :
    matchLabels ((p0 :: ps) :: ls) (c :: r) = none := by
  simp [matchLabels, stripLit_head_ne p0 ps c r h]

theorem meterMatch_head_none (p0 : Char) (ps : List Char)
    (ls : List (List Char)) (c : Char) (r : List Char)
    (h : lowEq p0 c = false) :
    meterMatch ((p0 :: ps) :: ls) (c :: r) = none := by
  simp only [meterMatch, matchLabels_head_none p0 ps ls c r h, opt_bind_none]

theorem lowEq_false_of_toNat {p c : Char}
    (h : (lowCh p).toNat ≠ (lowCh c).toNat) : lowEq p c = false := by
  unfold lowEq
  rw [beq_eq_false_iff_ne]
  intro he
  exact h (congrArg Char.toNat he)

theorem lowCh_of_small (c : Char) (h : c.toNat < 65) : lowCh c = c := by
  unfold lowCh
  rw [if_neg (by omega), if_neg (by omega)]

theorem lowCh_toNat_of_digdot {c : Char} (hc : isDig c = true ∨ c = '.') :
    (lowCh c).toNat = c.toNat ∧ 46 ≤ c.toNat ∧ c.toNat ≤ 57 := by
  rcases hc with hd | rfl
  · obtain ⟨h1, h2⟩ := isDig_toNat hd
    rw [lowCh_of_small c (by omega)]
    omega
  · refine ⟨by rfl, by simp, by simp⟩

/-- Tokens made of digits and dots cannot start any of the patterns,
whose first (lower-cased) character lies outside the 46..57 range. -/
theorem lowEq_false_digdot (p c : Char)
    (hp : (lowCh p).toNat < 46 ∨ 57 < (lowCh p).toNat)
    (hc : isDig c = true ∨ c = '.') : lowEq p c = false := by
  obtain ⟨h1, h2, h3⟩ := lowCh_toNat_of_digdot hc
  exact lowEq_false_of_toNat (by omega)

/-! ### Literal consumption steps (all definitional) -/

theorem slBylo (X : List Char) :
    stripLit ['Б', 'ы', 'л', 'о'] (['Б', 'ы', 'л', 'о', ' ', '-', ' '] ++ X) =
      some ([' ', '-', ' '] ++ X) := rfl

theorem slStalo (X : List Char) :
    stripLit ['С', 'т', 'а', 'л', 'о']
      (['С', 'т', 'а', 'л', 'о', ' ', '-', ' '] ++ X) =
      some ([' ', '-', ' '] ++ X) := rfl

theorem dwDash (X : List Char) :
    List.dropWhile isWS ([' ', '-', ' '] ++ X) = ['-', ' '] ++ X := rfl

theorem slDash (X : List Char) :
    stripLit ['-'] (['-', ' '] ++ X) = some (' ' :: X) := rfl

theorem slStar (X : List Char) :
    stripLit ['*'] (['*', ' '] ++ X) = some (' ' :: X) := rfl

theorem slEq (X : List Char) :
    stripLit ['='] (['=', ' '] ++ X) = some (' ' :: X) := rfl

theorem dwSpStalo (X : List Char) :
    List.dropWhile isWS (' ' :: (['С', 'т', 'а', 'л', 'о', ' ', '-', ' '] ++ X)) =
      ['С', 'т', 'а', 'л', 'о', ' ', '-', ' '] ++ X := rfl

theorem dwSpStar (X : List Char) :
    List.dropWhile isWS (' ' :: (['*', ' '] ++ X)) = ['*', ' '] ++ X := rfl

theorem dwSpEq (X : List Char) :
    List.dropWhile isWS (' ' :: (['=', ' '] ++ X)) = ['=', ' '] ++ X := rfl

theorem mlCold (T : List Char) :
    matchLabels coldLabels (("Хол. вода: Было - ").data ++ T) =
      some (("Было - ").data ++ T) := rfl

theorem mlHot (T : List Char) :
    matchLabels hotLabels (("Гор. вода: Было - ").data ++ T) =
      some (("Было - ").data ++ T) := rfl

theorem mlElec (T : List Char) :
    matchLabels elecLabels (("Электроэнергия: Было - ").data ++ T) =
      some (("Было - ").data ++ T) := rfl

theorem mlColdNm (P N C R A rest : List Char) :
    matchLabels coldLabels (nmCold P N C R A rest) =
      some (("Было - ").data ++ nmMeterTail P N C R A rest) := rfl

theorem mlHotNm (P N C R A rest : List Char) :
    matchLabels hotLabels (nmHot P N C R A rest) =
      some (("Было - ").data ++ nmMeterTail P N C R A rest) := rfl

theorem mlElecNm (P N C R A rest : List Char) :
    matchLabels elecLabels (nmElec P N C R A rest) =
      some (("Было - ").data ++ nmMeterTail P N C R A rest) := rfl

theorem mlWd (T : List Char) :
    matchLabels [['В', 'о', 'д', 'о', 'о', 'т', 'в', 'е', 'д', 'е', 'н', 'и', 'е', ':']]
      (['В', 'о', 'д', 'о', 'о', 'т', 'в', 'е', 'д', 'е', 'н', 'и', 'е', ':', ' '] ++ T) =
      some (List.dropWhile isWS T) := rfl

theorem mlTotal (T : List Char) :
    matchLabels [['И', 'т', 'о', 'г', 'о', ':']]
      (['И', 'т', 'о', 'г', 'о', ':', ' '] ++ T) =
      some (List.dropWhile isWS T) := rfl

theorem mlDate (T : List Char) :
    matchLabels [['#', 'с', 'ч', 'е', 'т', 'ч', 'и', 'к', 'и']]
      (['#', 'с', 'ч', 'е', 'т', 'ч', 'и', 'к', 'и', ' '] ++ T) =
      some (List.dropWhile isWS T) := rfl

theorem dw_numTok (t r : List Char) (h : numTok t) :
    List.dropWhile isWS (t ++ r) = t ++ r := by
  obtain ⟨c, t2, rfl, hc⟩ := numTok_head_dig t h
  simp [List.dropWhile, dig_not_ws hc]

theorem dw_sp_digitsOnly (t r : List Char) (h : digitsOnly t) :
    List.dropWhile isWS (' ' :: (t ++ r)) = t ++ r := by
  rw [dropWhile_isWS_sp]
  exact dropWhile_isWS_digits t r h

theorem dw_sp_numTok (t r : List Char) (h : numTok t) :
    List.dropWhile isWS (' ' :: (t ++ r)) = t ++ r := by
  rw [dropWhile_isWS_sp]
  obtain ⟨c, t2, rfl, hc⟩ := numTok_head_dig t h
  simp [List.dropWhile, dig_not_ws hc]

theorem dw_digitsOnly (t r : List Char) (h : digitsOnly t) :
    List.dropWhile isWS (t ++ r) = t ++ r :=
  dropWhile_isWS_digits t r h

/-! ### Matching the patterns at their own sections -/

theorem meterMatch_after_labels (labels : List (List Char))
    (s P N C R A rest : List Char)
    (hml : matchLabels labels s =
      some (("Было - ").data ++ nmMeterTail P N C R A rest))
    (hP : digitsOnly P) (hN : digitsOnly N) (hC : digitsOnly C)
    (hR : numTok R) (hA : numTok A) :
    meterMatch labels s = some (P, N, C, R, A) := by
  simp only [meterMatch, hml, nmMeterTail, opt_bind_some, slBylo, dwDash, slDash,
    dw_sp_digitsOnly _ _ hP, takeRun_sp _ _ hP, dwSpStalo, slStalo,
    dw_sp_digitsOnly _ _ hN, takeTwoNums_sp _ _ _ hN hC, dwSpStar, slStar,
    dw_sp_numTok _ _ hR, takeNum_sp _ _ hR, dwSpEq, slEq,
    dw_sp_numTok _ _ hA, takeNum_sp _ _ hA]
  rfl

theorem meterMatch_cold_at (P N C R A rest : List Char)
    (hP : digitsOnly P) (hN : digitsOnly N) (hC : digitsOnly C)
    (hR : numTok R) (hA : numTok A) :
    meterMatch coldLabels (nmCold P N C R A rest) = some (P, N, C, R, A) :=
  meterMatch_after_labels _ _ P N C R A rest (mlColdNm P N C R A rest) hP hN hC hR hA

theorem meterMatch_hot_at (P N C R A rest : List Char)
    (hP : digitsOnly P) (hN : digitsOnly N) (hC : digitsOnly C)
    (hR : numTok R) (hA : numTok A) :
    meterMatch hotLabels (nmHot P N C R A rest) = some (P, N, C, R, A) :=
  meterMatch_after_labels _ _ P N C R A rest (mlHotNm P N C R A rest) hP hN hC hR hA

theorem meterMatch_elec_at (P N C R A rest : List Char)
    (hP : digitsOnly P) (hN : digitsOnly N) (hC : digitsOnly C)
    (hR : numTok R) (hA : numTok A) :
    meterMatch elecLabels (nmElec P N C R A rest) = some (P, N, C, R, A) :=
  meterMatch_after_labels _ _ P N C R A rest (mlElecNm P N C R A rest) hP hN hC hR hA

theorem wdMatch_at (C R A rest : List Char)
    (hC : digitsOnly C) (hR : numTok R) (hA : numTok A) :
    wdMatch (nmWd C R A rest) = some (C, R, A) := by
  simp only [wdMatch, nmWd, mlWd, opt_bind_some,
    dw_digitsOnly _ _ hC, takeNum_sp _ _ (digitsOnly_numTok hC),
    dwSpStar, slStar, dw_sp_numTok _ _ hR, takeNum_sp _ _ hR, dwSpEq, slEq,
    dw_sp_numTok _ _ hA, takeNum_sp _ _ hA]
  rfl

theorem totalMatch_at (T rest : List Char) (hT : numTok T) :
    totalMatch (nmTotal T rest) = some T := by
  simp only [totalMatch, nmTotal, mlTotal, opt_bind_some,
    dw_numTok _ _ hT, takeNum_sp _ _ hT]
  rfl

/-! ### Date rendering and matching -/

theorem natCharsGo_length (fuel : Nat) :
    ∀ n k, n < fuel → 1 ≤ k → n < 10 ^ k →
      (natCharsGo fuel n).length ≤ k := by
  induction fuel with
  | zero => intro n k hn; omega
  | succ fuel ih =>
    intro n k hn hk hnk
    by_cases h10 : n < 10
    · simp [natCharsGo, h10]
      omega
    · have hk2 : 2 ≤ k := by
        by_contra hlt
        have : k = 1 := by omega
        subst this
        simp at hnk
        omega
      have hdiv : n / 10 < 10 ^ (k - 1) := by
        rw [Nat.div_lt_iff_lt_mul (by norm_num)]
        have : 10 ^ (k - 1) * 10 = 10 ^ k := by
          rw [← pow_succ]
          congr 1
          omega
        omega
      have hlen := ih (n / 10) (k - 1)
        (by
          have := Nat.div_lt_self (by omega : 0 < n) (by norm_num : 1 < 10)
          omega)
        (by omega) hdiv
      simp [natCharsGo, h10]
      omega

theorem padNat_spec (k n : Nat) (hk : 1 ≤ k) (h : n < 10 ^ k) :
    (padNat k n).length = k ∧ (∀ c ∈ padNat k n, isDig c = true) ∧
      digitsToNat (padNat k n) = n := by
  have hlen : (natChars n).length ≤ k :=
    natCharsGo_length (n + 1) n k (by omega) hk h
  refine ⟨?_, ?_, ?_⟩
  · unfold padNat
    rw [padZeros_length]
    omega
  · exact padZeros_digits _ _ (natChars_spec n).2.1
  · unfold padNat
    rw [digitsToNat_padZeros]
    exact (natChars_spec n).2.2

theorem padNat_digitsOnly (k n : Nat) (hk : 1 ≤ k) (h : n < 10 ^ k) :
    digitsOnly (padNat k n) := by
  obtain ⟨h1, h2, -⟩ := padNat_spec k n hk h
  exact ⟨by intro hnil; rw [hnil] at h1; simp at h1; omega, h2⟩

theorem takeExactDigits_at (n : Nat) (t r : List Char) (hlen : t.length = n)
    (hdig : ∀ c ∈ t, isDig c = true) :
    takeExactDigits n (t ++ r) = some (t, r) := by
  unfold takeExactDigits
  rw [← hlen, List.take_left, List.drop_left]
  rw [if_pos ⟨rfl, by rw [List.all_eq_true]; exact hdig⟩]

theorem slDot (X : List Char) : stripLit ['.'] ('.' :: X) = some X := rfl

theorem dateMatch_at (d mo y : Nat) (hd1 : 1 ≤ d) (hd : d < 100)
    (hm1 : 1 ≤ mo) (hmo : mo < 100) (hy1 : 1 ≤ y) (hy : y < 10000) :
    dateMatch (nmDate (padNat 2 d ++ '.' :: (padNat 2 mo ++ '.' :: padNat 4 y))) =
      some (padNat 2 d, padNat 2 mo, padNat 4 y) := by
  obtain ⟨hl1, hg1, -⟩ := padNat_spec 2 d (by norm_num) (by norm_num; omega)
  obtain ⟨hl2, hg2, -⟩ := padNat_spec 2 mo (by norm_num) (by norm_num; omega)
  obtain ⟨hl3, hg3, -⟩ := padNat_spec 4 y (by norm_num) (by norm_num; omega)
  have hdo1 : digitsOnly (padNat 2 d) :=
    padNat_digitsOnly 2 d (by norm_num) (by norm_num; omega)
  have hfin : takeExactDigits 4 (padNat 4 y) = some (padNat 4 y, []) := by
    have := takeExactDigits_at 4 (padNat 4 y) [] hl3 hg3
    simpa using this
  simp only [dateMatch, nmDate, mlDate, opt_bind_some,
    dw_digitsOnly _ _ hdo1, takeExactDigits_at 2 _ _ hl1 hg1, slDot,
    takeExactDigits_at 2 _ _ hl2 hg2, hfin]
  rfl

/-! ### First-character failure wrappers for each pattern -/

theorem hotHF (c : Char) (r : List Char) (h : lowEq 'Г' c = false) :
    meterMatch hotLabels (c :: r) = none := by
  have hl : hotLabels = ('Г' :: ("ор.").data) :: [("вода:").data] := rfl
  rw [hl]
  exact meterMatch_head_none _ _ _ _ _ h

theorem elecHF (c : Char) (r : List Char) (h : lowEq 'Э' c = false) :
    meterMatch elecLabels (c :: r) = none := by
  have hl : elecLabels = ('Э' :: ("лектроэнергия:").data) :: [] := rfl
  rw [hl]
  exact meterMatch_head_none _ _ _ _ _ h

theorem wdHF (c : Char) (r : List Char) (h : lowEq 'В' c = false) :
    wdMatch (c :: r) = none := by
  have h1 : matchLabels [("Водоотведение:").data] (c :: r) = none :=
    matchLabels_head_none 'В' (("одоотведение:").data) [] c r h
  simp only [wdMatch, h1, opt_bind_none]

theorem totalHF (c : Char) (r : List Char) (h : lowEq 'И' c = false) :
    totalMatch (c :: r) = none := by
  have h1 : matchLabels [("Итого:").data] (c :: r) = none :=
    matchLabels_head_none 'И' (("того:").data) [] c r h
  simp only [totalMatch, h1, opt_bind_none]

theorem dateHF (c : Char) (r : List Char) (h : lowEq '#' c = false) :
    dateMatch (c :: r) = none := by
  have h1 : matchLabels [("#счетчики").data] (c :: r) = none :=
    matchLabels_head_none '#' (("счетчики").data) [] c r h
  simp only [dateMatch, h1, opt_bind_none]

/-! ### Skipping combinators -/

theorem skips_hf {α : Type} (f : List Char → Option α) (H : Char)
    (hf : ∀ c r, lowEq H c = false → f (c :: r) = none)
    (xs : List Char) (hxs : ∀ c ∈ xs, lowEq H c = false) : skips f xs :=
  skips_of_head_fail f (fun c => lowEq H c = false) hf xs hxs

theorem numTok_digdot (t : List Char) (h : numTok t) :
    ∀ c ∈ t, isDig c = true ∨ c = '.' := by
  intro c hc
  rcases h with hd | ⟨I, F, rfl, hI, hF⟩
  · exact Or.inl (hd.2 c hc)
  · rcases List.mem_append.mp hc with h1 | h1
    · exact Or.inl (hI.2 c h1)
    · rcases List.mem_cons.mp h1 with h2 | h2
      · exact Or.inr h2
      · exact Or.inl (hF.2 c h2)

theorem skips_tok {α : Type} (f : List Char → Option α) (H : Char)
    (hf : ∀ c r, lowEq H c = false → f (c :: r) = none)
    (hH : (lowCh H).toNat < 46 ∨ 57 < (lowCh H).toNat)
    (t : List Char) (ht : ∀ c ∈ t, isDig c = true ∨ c = '.') : skips f t :=
  skips_hf f H hf t (fun c hc => lowEq_false_digdot H c hH (ht c hc))

theorem skips_nmSection {α : Type} (f : List Char → Option α)
    (chunk P N C R A rest : List Char)
    (h0 : skips f chunk)
    (h1 : skips f (("Стало - ").data)) (h2 : skips f (("* ").data))
    (h3 : skips f (("= ").data)) (hsp : skips f [' '])
    (hP : skips f P) (hN : skips f N) (hC : skips f C)
    (hR : skips f R) (hA : skips f A) :
    searchFrom f (chunk ++ nmMeterTail P N C R A rest) = searchFrom f rest := by
  have he : chunk ++ nmMeterTail P N C R A rest =
      (chunk ++ (P ++ ([' '] ++ ((("Стало - ").data) ++ (N ++ ([' '] ++ (C ++ ([' '] ++ ((("* ").data) ++ (R ++ ([' '] ++ ((("= ").data) ++ (A ++ [' ']))))))))))))) ++ rest := by
    simp [nmMeterTail, List.append_assoc]
  rw [he]
  exact (skips_append f h0 (skips_append f hP (skips_append f hsp (skips_append f h1 (skips_append f hN (skips_append f hsp (skips_append f hC (skips_append f hsp (skips_append f h2 (skips_append f hR (skips_append f hsp (skips_append f h3 (skips_append f hA hsp))))))))))))) rest

theorem skips_nmWd {α : Type} (f : List Char → Option α)
    (C R A rest : List Char)
    (h0 : skips f (("Водоотведение: ").data))
    (h2 : skips f (("* ").data)) (h3 : skips f (("= ").data))
    (hsp : skips f [' '])
    (hC : skips f C) (hR : skips f R) (hA : skips f A) :
    searchFrom f (nmWd C R A rest) = searchFrom f rest := by
  have he : nmWd C R A rest = ((("Водоотведение: ").data) ++ (C ++ ([' '] ++ ((("* ").data) ++ (R ++ ([' '] ++ ((("= ").data) ++ (A ++ [' '])))))))) ++ rest := by
    simp [nmWd, List.append_assoc]
  rw [he]
  exact (skips_append f h0 (skips_append f hC (skips_append f hsp (skips_append f h2 (skips_append f hR (skips_append f hsp (skips_append f h3 (skips_append f hA hsp)))))))) rest

theorem skips_nmTotal {α : Type} (f : List Char → Option α)
    (T rest : List Char)
    (h0 : skips f (("Итого: ").data)) (hsp : skips f [' '])
    (hT : skips f T) :
    searchFrom f (nmTotal T rest) = searchFrom f rest := by
  have he : nmTotal T rest = ((("Итого: ").data) ++ (T ++ [' '])) ++ rest := by
    simp [nmTotal, List.append_assoc]
  rw [he]
  exact (skips_append f h0 (skips_append f hT hsp)) rest

/-! ### Atom-skipping facts proved by stepping through each position -/

theorem skips_wd_voda : skips wdMatch (("вода: ").data) := by
  intro r
  show searchFrom wdMatch ('в' :: 'о' :: 'д' :: 'а' :: ':' :: ' ' :: r) = searchFrom wdMatch r
  rw [searchFrom_cons_none _ _ _ rfl, searchFrom_cons_none _ _ _ rfl, searchFrom_cons_none _ _ _ rfl, searchFrom_cons_none _ _ _ rfl, searchFrom_cons_none _ _ _ rfl, searchFrom_cons_none _ _ _ rfl]

theorem skips_total_wdlabel : skips totalMatch (("Водоотведение: ").data) := by
  intro r
  show searchFrom totalMatch ('В' :: 'о' :: 'д' :: 'о' :: 'о' :: 'т' :: 'в' :: 'е' :: 'д' :: 'е' :: 'н' :: 'и' :: 'е' :: ':' :: ' ' :: r) = searchFrom totalMatch r
  rw [searchFrom_cons_none _ _ _ rfl, searchFrom_cons_none _ _ _ rfl, searchFrom_cons_none _ _ _ rfl, searchFrom_cons_none _ _ _ rfl, searchFrom_cons_none _ _ _ rfl, searchFrom_cons_none _ _ _ rfl, searchFrom_cons_none _ _ _ rfl, searchFrom_cons_none _ _ _ rfl, searchFrom_cons_none _ _ _ rfl, searchFrom_cons_none _ _ _ rfl, searchFrom_cons_none _ _ _ rfl, searchFrom_cons_none _ _ _ rfl, searchFrom_cons_none _ _ _ rfl, searchFrom_cons_none _ _ _ rfl, searchFrom_cons_none _ _ _ rfl]

theorem skips_total_elec : skips totalMatch (("Электроэнергия: Было - ").data) := by
  intro r
  show searchFrom totalMatch ('Э' :: 'л' :: 'е' :: 'к' :: 'т' :: 'р' :: 'о' :: 'э' :: 'н' :: 'е' :: 'р' :: 'г' :: 'и' :: 'я' :: ':' :: ' ' :: 'Б' :: 'ы' :: 'л' :: 'о' :: ' ' :: '-' :: ' ' :: r) = searchFrom totalMatch r
  rw [searchFrom_cons_none _ _ _ rfl, searchFrom_cons_none _ _ _ rfl, searchFrom_cons_none _ _ _ rfl, searchFrom_cons_none _ _ _ rfl, searchFrom_cons_none _ _ _ rfl, searchFrom_cons_none _ _ _ rfl, searchFrom_cons_none _ _ _ rfl, searchFrom_cons_none _ _ _ rfl, searchFrom_cons_none _ _ _ rfl, searchFrom_cons_none _ _ _ rfl, searchFrom_cons_none _ _ _ rfl, searchFrom_cons_none _ _ _ rfl, searchFrom_cons_none _ _ _ rfl, searchFrom_cons_none _ _ _ rfl, searchFrom_cons_none _ _ _ rfl, searchFrom_cons_none _ _ _ rfl, searchFrom_cons_none _ _ _ rfl, searchFrom_cons_none _ _ _ rfl, searchFrom_cons_none _ _ _ rfl, searchFrom_cons_none _ _ _ rfl, searchFrom_cons_none _ _ _ rfl, searchFrom_cons_none _ _ _ rfl, searchFrom_cons_none _ _ _ rfl]

/-! ### Per-pattern section-skipping lemmas -/

theorem skipCold_hot (t1 t2 t3 t4 t5 R : List Char)
    (h1 : ∀ c ∈ t1, isDig c = true ∨ c = '.')
    (h2 : ∀ c ∈ t2, isDig c = true ∨ c = '.')
    (h3 : ∀ c ∈ t3, isDig c = true ∨ c = '.')
    (h4 : ∀ c ∈ t4, isDig c = true ∨ c = '.')
    (h5 : ∀ c ∈ t5, isDig c = true ∨ c = '.') :
    searchFrom (meterMatch hotLabels) (nmCold t1 t2 t3 t4 t5 R) = searchFrom (meterMatch hotLabels) R := by
  simp only [nmCold]
  exact skips_nmSection _ _ _ _ _ _ _ _
    (skips_hf _ 'Г' hotHF _ (by decide))
    (skips_hf _ 'Г' hotHF _ (by decide))
    (skips_hf _ 'Г' hotHF _ (by decide))
    (skips_hf _ 'Г' hotHF _ (by decide))
    (skips_hf _ 'Г' hotHF _ (by decide))
    (skips_tok _ 'Г' hotHF (by decide) _ h1)
    (skips_tok _ 'Г' hotHF (by decide) _ h2)
    (skips_tok _ 'Г' hotHF (by decide) _ h3)
    (skips_tok _ 'Г' hotHF (by decide) _ h4)
    (skips_tok _ 'Г' hotHF (by decide) _ h5)

theorem skipCold_wd (t1 t2 t3 t4 t5 R : List Char)
    (h1 : ∀ c ∈ t1, isDig c = true ∨ c = '.')
    (h2 : ∀ c ∈ t2, isDig c = true ∨ c = '.')
    (h3 : ∀ c ∈ t3, isDig c = true ∨ c = '.')
    (h4 : ∀ c ∈ t4, isDig c = true ∨ c = '.')
    (h5 : ∀ c ∈ t5, isDig c = true ∨ c = '.') :
    searchFrom wdMatch (nmCold t1 t2 t3 t4 t5 R) = searchFrom wdMatch R := by
  simp only [nmCold]
  exact skips_nmSection _ _ _ _ _ _ _ _
    (by
      show skips wdMatch ((("Хол. ").data) ++ ((("вода: ").data) ++ (("Было - ").data)))
      exact skips_append _ (skips_hf _ 'В' wdHF _ (by decide)) (skips_append _ skips_wd_voda (skips_hf _ 'В' wdHF _ (by decide))))
    (skips_hf _ 'В' wdHF _ (by decide))
    (skips_hf _ 'В' wdHF _ (by decide))
    (skips_hf _ 'В' wdHF _ (by decide))
    (skips_hf _ 'В' wdHF _ (by decide))
    (skips_tok _ 'В' wdHF (by decide) _ h1)
    (skips_tok _ 'В' wdHF (by decide) _ h2)
    (skips_tok _ 'В' wdHF (by decide) _ h3)
    (skips_tok _ 'В' wdHF (by decide) _ h4)
    (skips_tok _ 'В' wdHF (by decide) _ h5)

theorem skipHot_wd (t1 t2 t3 t4 t5 R : List Char)
    (h1 : ∀ c ∈ t1, isDig c = true ∨ c = '.')
    (h2 : ∀ c ∈ t2, isDig c = true ∨ c = '.')
    (h3 : ∀ c ∈ t3, isDig c = true ∨ c = '.')
    (h4 : ∀ c ∈ t4, isDig c = true ∨ c = '.')
    (h5 : ∀ c ∈ t5, isDig c = true ∨ c = '.') :
    searchFrom wdMatch (nmHot t1 t2 t3 t4 t5 R) = searchFrom wdMatch R := by
  simp only [nmHot]
  exact skips_nmSection _ _ _ _ _ _ _ _
    (by
      show skips wdMatch ((("Гор. ").data) ++ ((("вода: ").data) ++ (("Было - ").data)))
      exact skips_append _ (skips_hf _ 'В' wdHF _ (by decide)) (skips_append _ skips_wd_voda (skips_hf _ 'В' wdHF _ (by decide))))
    (skips_hf _ 'В' wdHF _ (by decide))
    (skips_hf _ 'В' wdHF _ (by decide))
    (skips_hf _ 'В' wdHF _ (by decide))
    (skips_hf _ 'В' wdHF _ (by decide))
    (skips_tok _ 'В' wdHF (by decide) _ h1)
    (skips_tok _ 'В' wdHF (by decide) _ h2)
    (skips_tok _ 'В' wdHF (by decide) _ h3)
    (skips_tok _ 'В' wdHF (by decide) _ h4)
    (skips_tok _ 'В' wdHF (by decide) _ h5)

theorem skipCold_elec (t1 t2 t3 t4 t5 R : List Char)
    (h1 : ∀ c ∈ t1, isDig c = true ∨ c = '.')
    (h2 : ∀ c ∈ t2, isDig c = true ∨ c = '.')
    (h3 : ∀ c ∈ t3, isDig c = true ∨ c = '.')
    (h4 : ∀ c ∈ t4, isDig c = true ∨ c = '.')
    (h5 : ∀ c ∈ t5, isDig c = true ∨ c = '.') :
    searchFrom (meterMatch elecLabels) (nmCold t1 t2 t3 t4 t5 R) = searchFrom (meterMatch elecLabels) R := by
  simp only [nmCold]
  exact skips_nmSection _ _ _ _ _ _ _ _
    (skips_hf _ 'Э' elecHF _ (by decide))
    (skips_hf _ 'Э' elecHF _ (by decide))
    (skips_hf _ 'Э' elecHF _ (by decide))
    (skips_hf _ 'Э' elecHF _ (by decide))
    (skips_hf _ 'Э' elecHF _ (by decide))
    (skips_tok _ 'Э' elecHF (by decide) _ h1)
    (skips_tok _ 'Э' elecHF (by decide) _ h2)
    (skips_tok _ 'Э' elecHF (by decide) _ h3)
    (skips_tok _ 'Э' elecHF (by decide) _ h4)
    (skips_tok _ 'Э' elecHF (by decide) _ h5)

theorem skipHot_elec (t1 t2 t3 t4 t5 R : List Char)
    (h1 : ∀ c ∈ t1, isDig c = true ∨ c = '.')
    (h2 : ∀ c ∈ t2, isDig c = true ∨ c = '.')
    (h3 : ∀ c ∈ t3, isDig c = true ∨ c = '.')
    (h4 : ∀ c ∈ t4, isDig c = true ∨ c = '.')
    (h5 : ∀ c ∈ t5, isDig c = true ∨ c = '.') :
    searchFrom (meterMatch elecLabels) (nmHot t1 t2 t3 t4 t5 R) = searchFrom (meterMatch elecLabels) R := by
  simp only [nmHot]
  exact skips_nmSection _ _ _ _ _ _ _ _
    (skips_hf _ 'Э' elecHF _ (by decide))
    (skips_hf _ 'Э' elecHF _ (by decide))
    (skips_hf _ 'Э' elecHF _ (by decide))
    (skips_hf _ 'Э' elecHF _ (by decide))
    (skips_hf _ 'Э' elecHF _ (by decide))
    (skips_tok _ 'Э' elecHF (by decide) _ h1)
    (skips_tok _ 'Э' elecHF (by decide) _ h2)
    (skips_tok _ 'Э' elecHF (by decide) _ h3)
    (skips_tok _ 'Э' elecHF (by decide) _ h4)
    (skips_tok _ 'Э' elecHF (by decide) _ h5)

theorem skipWd_elec (t1 t2 t3 R : List Char)
    (h1 : ∀ c ∈ t1, isDig c = true ∨ c = '.')
    (h2 : ∀ c ∈ t2, isDig c = true ∨ c = '.')
    (h3 : ∀ c ∈ t3, isDig c = true ∨ c = '.') :
    searchFrom (meterMatch elecLabels) (nmWd t1 t2 t3 R) = searchFrom (meterMatch elecLabels) R := by
  exact skips_nmWd _ _ _ _ _
    (skips_hf _ 'Э' elecHF _ (by decide))
    (skips_hf _ 'Э' elecHF _ (by decide))
    (skips_hf _ 'Э' elecHF _ (by decide))
    (skips_hf _ 'Э' elecHF _ (by decide))
    (skips_tok _ 'Э' elecHF (by decide) _ h1)
    (skips_tok _ 'Э' elecHF (by decide) _ h2)
    (skips_tok _ 'Э' elecHF (by decide) _ h3)

theorem skipCold_total (t1 t2 t3 t4 t5 R : List Char)
    (h1 : ∀ c ∈ t1, isDig c = true ∨ c = '.')
    (h2 : ∀ c ∈ t2, isDig c = true ∨ c = '.')
    (h3 : ∀ c ∈ t3, isDig c = true ∨ c = '.')
    (h4 : ∀ c ∈ t4, isDig c = true ∨ c = '.')
    (h5 : ∀ c ∈ t5, isDig c = true ∨ c = '.') :
    searchFrom totalMatch (nmCold t1 t2 t3 t4 t5 R) = searchFrom totalMatch R := by
  simp only [nmCold]
  exact skips_nmSection _ _ _ _ _ _ _ _
    (skips_hf _ 'И' totalHF _ (by decide))
    (skips_hf _ 'И' totalHF _ (by decide))
    (skips_hf _ 'И' totalHF _ (by decide))
    (skips_hf _ 'И' totalHF _ (by decide))
    (skips_hf _ 'И' totalHF _ (by decide))
    (skips_tok _ 'И' totalHF (by decide) _ h1)
    (skips_tok _ 'И' totalHF (by decide) _ h2)
    (skips_tok _ 'И' totalHF (by decide) _ h3)
    (skips_tok _ 'И' totalHF (by decide) _ h4)
    (skips_tok _ 'И' totalHF (by decide) _ h5)

theorem skipHot_total (t1 t2 t3 t4 t5 R : List Char)
    (h1 : ∀ c ∈ t1, isDig c = true ∨ c = '.')
    (h2 : ∀ c ∈ t2, isDig c = true ∨ c = '.')
    (h3 : ∀ c ∈ t3, isDig c = true ∨ c = '.')
    (h4 : ∀ c ∈ t4, isDig c = true ∨ c = '.')
    (h5 : ∀ c ∈ t5, isDig c = true ∨ c = '.') :
    searchFrom totalMatch (nmHot t1 t2 t3 t4 t5 R) = searchFrom totalMatch R := by
  simp only [nmHot]
  exact skips_nmSection _ _ _ _ _ _ _ _
    (skips_hf _ 'И' totalHF _ (by decide))
    (skips_hf _ 'И' totalHF _ (by decide))
    (skips_hf _ 'И' totalHF _ (by decide))
    (skips_hf _ 'И' totalHF _ (by decide))
    (skips_hf _ 'И' totalHF _ (by decide))
    (skips_tok _ 'И' totalHF (by decide) _ h1)
    (skips_tok _ 'И' totalHF (by decide) _ h2)
    (skips_tok _ 'И' totalHF (by decide) _ h3)
    (skips_tok _ 'И' totalHF (by decide) _ h4)
    (skips_tok _ 'И' totalHF (by decide) _ h5)

theorem skipWd_total (t1 t2 t3 R : List Char)
    (h1 : ∀ c ∈ t1, isDig c = true ∨ c = '.')
    (h2 : ∀ c ∈ t2, isDig c = true ∨ c = '.')
    (h3 : ∀ c ∈ t3, isDig c = true ∨ c = '.') :
    searchFrom totalMatch (nmWd t1 t2 t3 R) = searchFrom totalMatch R := by
  exact skips_nmWd _ _ _ _ _
    (skips_total_wdlabel)
    (skips_hf _ 'И' totalHF _ (by decide))
    (skips_hf _ 'И' totalHF _ (by decide))
    (skips_hf _ 'И' totalHF _ (by decide))
    (skips_tok _ 'И' totalHF (by decide) _ h1)
    (skips_tok _ 'И' totalHF (by decide) _ h2)
    (skips_tok _ 'И' totalHF (by decide) _ h3)

theorem skipElec_total (t1 t2 t3 t4 t5 R : List Char)
    (h1 : ∀ c ∈ t1, isDig c = true ∨ c = '.')
    (h2 : ∀ c ∈ t2, isDig c = true ∨ c = '.')
    (h3 : ∀ c ∈ t3, isDig c = true ∨ c = '.')
    (h4 : ∀ c ∈ t4, isDig c = true ∨ c = '.')
    (h5 : ∀ c ∈ t5, isDig c = true ∨ c = '.') :
    searchFrom totalMatch (nmElec t1 t2 t3 t4 t5 R) = searchFrom totalMatch R := by
  simp only [nmElec]
  exact skips_nmSection _ _ _ _ _ _ _ _
    (skips_total_elec)
    (skips_hf _ 'И' totalHF _ (by decide))
    (skips_hf _ 'И' totalHF _ (by decide))
    (skips_hf _ 'И' totalHF _ (by decide))
    (skips_hf _ 'И' totalHF _ (by decide))
    (skips_tok _ 'И' totalHF (by decide) _ h1)
    (skips_tok _ 'И' totalHF (by decide) _ h2)
    (skips_tok _ 'И' totalHF (by decide) _ h3)
    (skips_tok _ 'И' totalHF (by decide) _ h4)
    (skips_tok _ 'И' totalHF (by decide) _ h5)

theorem skipCold_date (t1 t2 t3 t4 t5 R : List Char)
    (h1 : ∀ c ∈ t1, isDig c = true ∨ c = '.')
    (h2 : ∀ c ∈ t2, isDig c = true ∨ c = '.')
    (h3 : ∀ c ∈ t3, isDig c = true ∨ c = '.')
    (h4 : ∀ c ∈ t4, isDig c = true ∨ c = '.')
    (h5 : ∀ c ∈ t5, isDig c = true ∨ c = '.') :
    searchFrom dateMatch (nmCold t1 t2 t3 t4 t5 R) = searchFrom dateMatch R := by
  simp only [nmCold]
  exact skips_nmSection _ _ _ _ _ _ _ _
    (skips_hf _ '#' dateHF _ (by decide))
    (skips_hf _ '#' dateHF _ (by decide))
    (skips_hf _ '#' dateHF _ (by decide))
    (skips_hf _ '#' dateHF _ (by decide))
    (skips_hf _ '#' dateHF _ (by decide))
    (skips_tok _ '#' dateHF (by decide) _ h1)
    (skips_tok _ '#' dateHF (by decide) _ h2)
    (skips_tok _ '#' dateHF (by decide) _ h3)
    (skips_tok _ '#' dateHF (by decide) _ h4)
    (skips_tok _ '#' dateHF (by decide) _ h5)

theorem skipHot_date (t1 t2 t3 t4 t5 R : List Char)
    (h1 : ∀ c ∈ t1, isDig c = true ∨ c = '.')
    (h2 : ∀ c ∈ t2, isDig c = true ∨ c = '.')
    (h3 : ∀ c ∈ t3, isDig c = true ∨ c = '.')
    (h4 : ∀ c ∈ t4, isDig c = true ∨ c = '.')
    (h5 : ∀ c ∈ t5, isDig c = true ∨ c = '.') :
    searchFrom dateMatch (nmHot t1 t2 t3 t4 t5 R) = searchFrom dateMatch R := by
  simp only [nmHot]
  exact skips_nmSection _ _ _ _ _ _ _ _
    (skips_hf _ '#' dateHF _ (by decide))
    (skips_hf _ '#' dateHF _ (by decide))
    (skips_hf _ '#' dateHF _ (by decide))
    (skips_hf _ '#' dateHF _ (by decide))
    (skips_hf _ '#' dateHF _ (by decide))
    (skips_tok _ '#' dateHF (by decide) _ h1)
    (skips_tok _ '#' dateHF (by decide) _ h2)
    (skips_tok _ '#' dateHF (by decide) _ h3)
    (skips_tok _ '#' dateHF (by decide) _ h4)
    (skips_tok _ '#' dateHF (by decide) _ h5)

theorem skipWd_date (t1 t2 t3 R : List Char)
    (h1 : ∀ c ∈ t1, isDig c = true ∨ c = '.')
    (h2 : ∀ c ∈ t2, isDig c = true ∨ c = '.')
    (h3 : ∀ c ∈ t3, isDig c = true ∨ c = '.') :
    searchFrom dateMatch (nmWd t1 t2 t3 R) = searchFrom dateMatch R := by
  exact skips_nmWd _ _ _ _ _
    (skips_hf _ '#' dateHF _ (by decide))
    (skips_hf _ '#' dateHF _ (by decide))
    (skips_hf _ '#' dateHF _ (by decide))
    (skips_hf _ '#' dateHF _ (by decide))
    (skips_tok _ '#' dateHF (by decide) _ h1)
    (skips_tok _ '#' dateHF (by decide) _ h2)
    (skips_tok _ '#' dateHF (by decide) _ h3)

theorem skipElec_date (t1 t2 t3 t4 t5 R : List Char)
    (h1 : ∀ c ∈ t1, isDig c = true ∨ c = '.')
    (h2 : ∀ c ∈ t2, isDig c = true ∨ c = '.')
    (h3 : ∀ c ∈ t3, isDig c = true ∨ c = '.')
    (h4 : ∀ c ∈ t4, isDig c = true ∨ c = '.')
    (h5 : ∀ c ∈ t5, isDig c = true ∨ c = '.') :
    searchFrom dateMatch (nmElec t1 t2 t3 t4 t5 R) = searchFrom dateMatch R := by
  simp only [nmElec]
  exact skips_nmSection _ _ _ _ _ _ _ _
    (skips_hf _ '#' dateHF _ (by decide))
    (skips_hf _ '#' dateHF _ (by decide))
    (skips_hf _ '#' dateHF _ (by decide))
    (skips_hf _ '#' dateHF _ (by decide))
    (skips_hf _ '#' dateHF _ (by decide))
    (skips_tok _ '#' dateHF (by decide) _ h1)
    (skips_tok _ '#' dateHF (by decide) _ h2)
    (skips_tok _ '#' dateHF (by decide) _ h3)
    (skips_tok _ '#' dateHF (by decide) _ h4)
    (skips_tok _ '#' dateHF (by decide) _ h5)

theorem skipTotal_date (t1 R : List Char)
    (h1 : ∀ c ∈ t1, isDig c = true ∨ c = '.') :
    searchFrom dateMatch (nmTotal t1 R) = searchFrom dateMatch R := by
  exact skips_nmTotal _ _ _
    (skips_hf _ '#' dateHF _ (by decide))
    (skips_hf _ '#' dateHF _ (by decide))
    (skips_tok _ '#' dateHF (by decide) _ h1)

/-! ### Whitespace collapse of each rendered chunk -/

theorem ncCold (r : List Char) :
    collapseWS false ((("Хол. вода:\nБыло - ").data) ++ r) = (("Хол. вода: Было -").data) ++ collapseWS true r := rfl

theorem ncStalo (r : List Char) :
    collapseWS false ((("\nСтало - ").data) ++ r) = ((" Стало -").data) ++ collapseWS true r := rfl

theorem ncNN (r : List Char) :
    collapseWS false ((("\n\n").data) ++ r) = collapseWS true r := rfl

theorem ncStar (r : List Char) :
    collapseWS false (((" * ").data) ++ r) = ((" *").data) ++ collapseWS true r := rfl

theorem ncEq (r : List Char) :
    collapseWS false (((" = ").data) ++ r) = ((" =").data) ++ collapseWS true r := rfl

theorem ncHot (r : List Char) :
    collapseWS true ((("Гор. вода:\nБыло - ").data) ++ r) = ((" Гор. вода: Было -").data) ++ collapseWS true r := rfl

theorem ncWd (r : List Char) :
    collapseWS true ((("Водоотведение:\n").data) ++ r) = ((" Водоотведение:").data) ++ collapseWS true r := rfl

theorem ncElec (r : List Char) :
    collapseWS true ((("Электроэнергия:\nБыло - ").data) ++ r) = ((" Электроэнергия: Было -").data) ++ collapseWS true r := rfl

theorem ncTotal (r : List Char) :
    collapseWS true ((("Итого: ").data) ++ r) = ((" Итого:").data) ++ collapseWS true r := rfl

theorem ncDate (r : List Char) :
    collapseWS true ((("#счетчики ").data) ++ r) = ((" #счетчики").data) ++ collapseWS true r := rfl

/-! ### Normalization of a full rendered report -/

theorem normalize_render (t1 t2 t3 t4 t5 t6 t7 t8 t9 t10 t11 t12 t13 t14 t15 t16 t17 t18 t19 D : List Char)
    (ht1 : t1 ≠ [] ∧ ∀ c ∈ t1, isWS c = false)
    (ht2 : t2 ≠ [] ∧ ∀ c ∈ t2, isWS c = false)
    (ht3 : t3 ≠ [] ∧ ∀ c ∈ t3, isWS c = false)
    (ht4 : t4 ≠ [] ∧ ∀ c ∈ t4, isWS c = false)
    (ht5 : t5 ≠ [] ∧ ∀ c ∈ t5, isWS c = false)
    (ht6 : t6 ≠ [] ∧ ∀ c ∈ t6, isWS c = false)
    (ht7 : t7 ≠ [] ∧ ∀ c ∈ t7, isWS c = false)
    (ht8 : t8 ≠ [] ∧ ∀ c ∈ t8, isWS c = false)
    (ht9 : t9 ≠ [] ∧ ∀ c ∈ t9, isWS c = false)
    (ht10 : t10 ≠ [] ∧ ∀ c ∈ t10, isWS c = false)
    (ht11 : t11 ≠ [] ∧ ∀ c ∈ t11, isWS c = false)
    (ht12 : t12 ≠ [] ∧ ∀ c ∈ t12, isWS c = false)
    (ht13 : t13 ≠ [] ∧ ∀ c ∈ t13, isWS c = false)
    (ht14 : t14 ≠ [] ∧ ∀ c ∈ t14, isWS c = false)
    (ht15 : t15 ≠ [] ∧ ∀ c ∈ t15, isWS c = false)
    (ht16 : t16 ≠ [] ∧ ∀ c ∈ t16, isWS c = false)
    (ht17 : t17 ≠ [] ∧ ∀ c ∈ t17, isWS c = false)
    (ht18 : t18 ≠ [] ∧ ∀ c ∈ t18, isWS c = false)
    (ht19 : t19 ≠ [] ∧ ∀ c ∈ t19, isWS c = false)
    (hD : D ≠ [] ∧ ∀ c ∈ D, isWS c = false) :
    pyNormalize ((("Хол. вода:\nБыло - ").data) ++ (t1 ++ ((("\nСтало - ").data) ++ (t2 ++ ((("\n\n").data) ++ (t3 ++ (((" * ").data) ++ (t4 ++ (((" = ").data) ++ (t5 ++ ((("\n\n").data) ++ ((("Гор. вода:\nБыло - ").data) ++ (t6 ++ ((("\nСтало - ").data) ++ (t7 ++ ((("\n\n").data) ++ (t8 ++ (((" * ").data) ++ (t9 ++ (((" = ").data) ++ (t10 ++ ((("\n\n").data) ++ ((("Водоотведение:\n").data) ++ (t11 ++ (((" * ").data) ++ (t12 ++ (((" = ").data) ++ (t13 ++ ((("\n\n").data) ++ ((("Электроэнергия:\nБыло - ").data) ++ (t14 ++ ((("\nСтало - ").data) ++ (t15 ++ ((("\n\n").data) ++ (t16 ++ (((" * ").data) ++ (t17 ++ (((" = ").data) ++ (t18 ++ ((("\n\n").data) ++ ((("Итого: ").data) ++ (t19 ++ ((("\n\n").data) ++ ((("#счетчики ").data) ++ D)))))))))))))))))))))))))))))))))))))))))))) =
      nmCold t1 t2 t3 t4 t5 (nmHot t6 t7 t8 t9 t10 (nmWd t11 t12 t13
        (nmElec t14 t15 t16 t17 t18 (nmTotal t19 (nmDate D))))) := by
  have ct1 : ∀ r, collapseWS true (t1 ++ r) = ' ' :: (t1 ++ collapseWS false r) := fun r => collapse_tok_true t1 r ht1.1 ht1.2
  have ct2 : ∀ r, collapseWS true (t2 ++ r) = ' ' :: (t2 ++ collapseWS false r) := fun r => collapse_tok_true t2 r ht2.1 ht2.2
  have ct3 : ∀ r, collapseWS true (t3 ++ r) = ' ' :: (t3 ++ collapseWS false r) := fun r => collapse_tok_true t3 r ht3.1 ht3.2
  have ct4 : ∀ r, collapseWS true (t4 ++ r) = ' ' :: (t4 ++ collapseWS false r) := fun r => collapse_tok_true t4 r ht4.1 ht4.2
  have ct5 : ∀ r, collapseWS true (t5 ++ r) = ' ' :: (t5 ++ collapseWS false r) := fun r => collapse_tok_true t5 r ht5.1 ht5.2
  have ct6 : ∀ r, collapseWS true (t6 ++ r) = ' ' :: (t6 ++ collapseWS false r) := fun r => collapse_tok_true t6 r ht6.1 ht6.2
  have ct7 : ∀ r, collapseWS true (t7 ++ r) = ' ' :: (t7 ++ collapseWS false r) := fun r => collapse_tok_true t7 r ht7.1 ht7.2
  have ct8 : ∀ r, collapseWS true (t8 ++ r) = ' ' :: (t8 ++ collapseWS false r) := fun r => collapse_tok_true t8 r ht8.1 ht8.2
  have ct9 : ∀ r, collapseWS true (t9 ++ r) = ' ' :: (t9 ++ collapseWS false r) := fun r => collapse_tok_true t9 r ht9.1 ht9.2
  have ct10 : ∀ r, collapseWS true (t10 ++ r) = ' ' :: (t10 ++ collapseWS false r) := fun r => collapse_tok_true t10 r ht10.1 ht10.2
  have ct11 : ∀ r, collapseWS true (t11 ++ r) = ' ' :: (t11 ++ collapseWS false r) := fun r => collapse_tok_true t11 r ht11.1 ht11.2
  have ct12 : ∀ r, collapseWS true (t12 ++ r) = ' ' :: (t12 ++ collapseWS false r) := fun r => collapse_tok_true t12 r ht12.1 ht12.2
  have ct13 : ∀ r, collapseWS true (t13 ++ r) = ' ' :: (t13 ++ collapseWS false r) := fun r => collapse_tok_true t13 r ht13.1 ht13.2
  have ct14 : ∀ r, collapseWS true (t14 ++ r) = ' ' :: (t14 ++ collapseWS false r) := fun r => collapse_tok_true t14 r ht14.1 ht14.2
  have ct15 : ∀ r, collapseWS true (t15 ++ r) = ' ' :: (t15 ++ collapseWS false r) := fun r => collapse_tok_true t15 r ht15.1 ht15.2
  have ct16 : ∀ r, collapseWS true (t16 ++ r) = ' ' :: (t16 ++ collapseWS false r) := fun r => collapse_tok_true t16 r ht16.1 ht16.2
  have ct17 : ∀ r, collapseWS true (t17 ++ r) = ' ' :: (t17 ++ collapseWS false r) := fun r => collapse_tok_true t17 r ht17.1 ht17.2
  have ct18 : ∀ r, collapseWS true (t18 ++ r) = ' ' :: (t18 ++ collapseWS false r) := fun r => collapse_tok_true t18 r ht18.1 ht18.2
  have ct19 : ∀ r, collapseWS true (t19 ++ r) = ' ' :: (t19 ++ collapseWS false r) := fun r => collapse_tok_true t19 r ht19.1 ht19.2
  have cD : collapseWS true D = ' ' :: D := by
    have h2 := collapse_tok_true D [] hD.1 hD.2
    simpa [collapseWS] using h2
  show collapseWS false ((("Хол. вода:\nБыло - ").data) ++ (t1 ++ ((("\nСтало - ").data) ++ (t2 ++ ((("\n\n").data) ++ (t3 ++ (((" * ").data) ++ (t4 ++ (((" = ").data) ++ (t5 ++ ((("\n\n").data) ++ ((("Гор. вода:\nБыло - ").data) ++ (t6 ++ ((("\nСтало - ").data) ++ (t7 ++ ((("\n\n").data) ++ (t8 ++ (((" * ").data) ++ (t9 ++ (((" = ").data) ++ (t10 ++ ((("\n\n").data) ++ ((("Водоотведение:\n").data) ++ (t11 ++ (((" * ").data) ++ (t12 ++ (((" = ").data) ++ (t13 ++ ((("\n\n").data) ++ ((("Электроэнергия:\nБыло - ").data) ++ (t14 ++ ((("\nСтало - ").data) ++ (t15 ++ ((("\n\n").data) ++ (t16 ++ (((" * ").data) ++ (t17 ++ (((" = ").data) ++ (t18 ++ ((("\n\n").data) ++ ((("Итого: ").data) ++ (t19 ++ ((("\n\n").data) ++ ((("#счетчики ").data) ++ D)))))))))))))))))))))))))))))))))))))))))))) = _
  rw [ncCold, ct1, ncStalo, ct2, ncNN, ct3, ncStar, ct4, ncEq, ct5, ncNN,
    ncHot, ct6, ncStalo, ct7, ncNN, ct8, ncStar, ct9, ncEq, ct10, ncNN,
    ncWd, ct11, ncStar, ct12, ncEq, ct13, ncNN,
    ncElec, ct14, ncStalo, ct15, ncNN, ct16, ncStar, ct17, ncEq, ct18, ncNN,
    ncTotal, ct19, ncNN, ncDate, cD]
  rfl

/-! ### Remaining arithmetic and date facts -/

theorem except_map_ok {ε α β : Type} (f : α → β) (x : α) :
    (Except.ok x : Except ε α).map f = Except.ok (f x) := rfl

theorem sub_zero_m (a b : Dec) (ha : a.s = 0) (hb : b.s = 0) :
    (a.sub b).m = a.m - b.m := by
  simp [Dec.sub, ha, hb]

theorem digdot_not_ws (c : Char) (h : isDig c = true ∨ c = '.') :
    isWS c = false := by
  rcases h with h | h
  · exact dig_not_ws h
  · rw [h]; rfl

theorem daysInMonth_le (m y : Nat) : daysInMonth m y ≤ 31 := by
  unfold daysInMonth
  split_ifs <;> omega

theorem validDMY_bounds (d m y : Nat) (h : validDMY d m y = true) :
    1 ≤ d ∧ d ≤ 31 ∧ 1 ≤ m ∧ m ≤ 12 ∧ 1 ≤ y ∧ y ≤ 9999 := by
  have hdm := daysInMonth_le m y
  simp only [validDMY, Bool.and_eq_true, decide_eq_true_eq] at h
  omega

theorem renderDate_assoc (dt : DateDMY) :
    renderDate dt =
      padNat 2 dt.day ++ '.' :: (padNat 2 dt.month ++ '.' :: padNat 4 dt.year) := by
  simp [renderDate, List.append_assoc]

theorem renderDate_facts (dt : DateDMY) (hd : dt.day < 100)
    (hmo : dt.month < 100) (hy : dt.year < 10000) :
    renderDate dt ≠ [] ∧ (∀ c ∈ renderDate dt, isDig c = true ∨ c = '.') := by
  obtain ⟨hl1, hg1, -⟩ := padNat_spec 2 dt.day (by norm_num) (by norm_num; omega)
  obtain ⟨hl2, hg2, -⟩ := padNat_spec 2 dt.month (by norm_num) (by norm_num; omega)
  obtain ⟨hl3, hg3, -⟩ := padNat_spec 4 dt.year (by norm_num) (by norm_num; omega)
  rw [renderDate_assoc]
  constructor
  · intro hnil
    rw [List.append_eq_nil] at hnil
    rw [hnil.1] at hl1
    simp at hl1
  · intro c hc
    rw [List.mem_append] at hc
    rcases hc with h1 | h1
    · exact Or.inl (hg1 c h1)
    · rw [List.mem_cons] at h1
      rcases h1 with h1 | h1
      · exact Or.inr h1
      · rw [List.mem_append] at h1
        rcases h1 with h1 | h1
        · exact Or.inl (hg2 c h1)
        · rw [List.mem_cons] at h1
          rcases h1 with h1 | h1
          · exact Or.inr h1
          · exact Or.inl (hg3 c h1)

/-! ### Claim C5: the round trip -/

set_option maxRecDepth 8000 in
/-- C5 (amended): round trip.  When the old bill's three metered
readings are present with integer nonnegative current values not above
the integer new readings, the four resolved rates are nonnegative and
short enough to render in fixed point (scale below digit count plus 6,
so `str` uses no scientific notation) and the report date is valid,
`_build_message` renders a report and
`parse_message` re-parses it successfully, recovering exactly the
displayed readings (water disposal with zero previous and the
synthesized consumption sum as current), the displayed total and the
date. -/
theorem claim_C5 (old : UtilityBill) (inp : InputData) (dt : DateDMY)
    (rc rh re2 : UtilityReading)
    (hc : old.cold_water = some rc) (hh : old.hot_water = some rh)
    (he : old.electricity = some re2)
    (hrcs : rc.current.s = 0) (hrcm : 0 ≤ rc.current.m)
    (hrhs : rh.current.s = 0) (hrhm : 0 ≤ rh.current.m)
    (hres : re2.current.s = 0) (hrem : 0 ≤ re2.current.m)
    (hcws : inp.cw.s = 0) (hhws : inp.hw.s = 0) (hels : inp.el.s = 0)
    (hcwm : rc.current.m ≤ inp.cw.m) (hhwm : rh.current.m ≤ inp.hw.m)
    (helm : re2.current.m ≤ inp.el.m)
    (hr1 : 0 ≤ (calcOf rc rh re2 old.water_disposal inp).cw_rate.m)
    (hr2 : 0 ≤ (calcOf rc rh re2 old.water_disposal inp).hw_rate.m)
    (hr3 : 0 ≤ (calcOf rc rh re2 old.water_disposal inp).el_rate.m)
    (hr4 : 0 ≤ (calcOf rc rh re2 old.water_disposal inp).wd_rate.m)
    (hf1 : (calcOf rc rh re2 old.water_disposal inp).cw_rate.s < (natChars (calcOf rc rh re2 old.water_disposal inp).cw_rate.m.natAbs).length + 6)
    (hf2 : (calcOf rc rh re2 old.water_disposal inp).hw_rate.s < (natChars (calcOf rc rh re2 old.water_disposal inp).hw_rate.m.natAbs).length + 6)
    (hf3 : (calcOf rc rh re2 old.water_disposal inp).el_rate.s < (natChars (calcOf rc rh re2 old.water_disposal inp).el_rate.m.natAbs).length + 6)
    (hf4 : (calcOf rc rh re2 old.water_disposal inp).wd_rate.s < (natChars (calcOf rc rh re2 old.water_disposal inp).wd_rate.m.natAbs).length + 6)
    (hdt : validDMY dt.day dt.month dt.year = true) :
    buildMessage old inp dt = Except.ok
      (renderReport rc.current rh.current re2.current inp (calcOf rc rh re2 old.water_disposal inp) dt) ∧
    parse_message (renderReport rc.current rh.current re2.current inp (calcOf rc rh re2 old.water_disposal inp) dt) =
      Except.ok (rtBill rc rh re2 inp (calcOf rc rh re2 old.water_disposal inp) dt) := by
  have ecw : (calcOf rc rh re2 old.water_disposal inp).cw_cons = inp.cw.sub rc.current := rfl
  have ehw : (calcOf rc rh re2 old.water_disposal inp).hw_cons = inp.hw.sub rh.current := rfl
  have eel : (calcOf rc rh re2 old.water_disposal inp).el_cons = inp.el.sub re2.current := rfl
  have ewd : (calcOf rc rh re2 old.water_disposal inp).wd_cons = Dec.add (calcOf rc rh re2 old.water_disposal inp).cw_cons (calcOf rc rh re2 old.water_disposal inp).hw_cons := rfl
  have ecwa : (calcOf rc rh re2 old.water_disposal inp).cw_amt = (Dec.mul (calcOf rc rh re2 old.water_disposal inp).cw_cons (calcOf rc rh re2 old.water_disposal inp).cw_rate).round2 := rfl
  have ehwa : (calcOf rc rh re2 old.water_disposal inp).hw_amt = (Dec.mul (calcOf rc rh re2 old.water_disposal inp).hw_cons (calcOf rc rh re2 old.water_disposal inp).hw_rate).round2 := rfl
  have ewda : (calcOf rc rh re2 old.water_disposal inp).wd_amt = (Dec.mul (calcOf rc rh re2 old.water_disposal inp).wd_cons (calcOf rc rh re2 old.water_disposal inp).wd_rate).round2 := rfl
  have eela : (calcOf rc rh re2 old.water_disposal inp).el_amt = (Dec.mul (calcOf rc rh re2 old.water_disposal inp).el_cons (calcOf rc rh re2 old.water_disposal inp).el_rate).round2 := rfl
  have etot : (calcOf rc rh re2 old.water_disposal inp).total =
      (Dec.add (Dec.add (Dec.add (calcOf rc rh re2 old.water_disposal inp).cw_amt (calcOf rc rh re2 old.water_disposal inp).hw_amt) (calcOf rc rh re2 old.water_disposal inp).wd_amt)
        (calcOf rc rh re2 old.water_disposal inp).el_amt).round2 := rfl
  have hm2 : 0 ≤ inp.cw.m := hrcm.trans hcwm
  have hm7 : 0 ≤ inp.hw.m := hrhm.trans hhwm
  have hm15 : 0 ≤ inp.el.m := hrem.trans helm
  have s3 : (calcOf rc rh re2 old.water_disposal inp).cw_cons.s = 0 := by
    rw [ecw, sub_zero_s _ _ hcws hrcs]
  have m3 : 0 ≤ (calcOf rc rh re2 old.water_disposal inp).cw_cons.m := by
    rw [ecw, sub_zero_m _ _ hcws hrcs]; omega
  have s8 : (calcOf rc rh re2 old.water_disposal inp).hw_cons.s = 0 := by
    rw [ehw, sub_zero_s _ _ hhws hrhs]
  have m8 : 0 ≤ (calcOf rc rh re2 old.water_disposal inp).hw_cons.m := by
    rw [ehw, sub_zero_m _ _ hhws hrhs]; omega
  have s16 : (calcOf rc rh re2 old.water_disposal inp).el_cons.s = 0 := by
    rw [eel, sub_zero_s _ _ hels hres]
  have m16 : 0 ≤ (calcOf rc rh re2 old.water_disposal inp).el_cons.m := by
    rw [eel, sub_zero_m _ _ hels hres]; omega
  have s11 : (calcOf rc rh re2 old.water_disposal inp).wd_cons.s = 0 := by
    rw [ewd, add_zero_s _ _ s3 s8]
  have m11 : 0 ≤ (calcOf rc rh re2 old.water_disposal inp).wd_cons.m := by rw [ewd]; exact add_nonneg_m _ _ m3 m8
  have m5 : 0 ≤ (calcOf rc rh re2 old.water_disposal inp).cw_amt.m := by
    rw [ecwa]; exact round2_nonneg _ (mul_nonneg_m _ _ m3 hr1)
  have m10 : 0 ≤ (calcOf rc rh re2 old.water_disposal inp).hw_amt.m := by
    rw [ehwa]; exact round2_nonneg _ (mul_nonneg_m _ _ m8 hr2)
  have m13 : 0 ≤ (calcOf rc rh re2 old.water_disposal inp).wd_amt.m := by
    rw [ewda]; exact round2_nonneg _ (mul_nonneg_m _ _ m11 hr4)
  have m18 : 0 ≤ (calcOf rc rh re2 old.water_disposal inp).el_amt.m := by
    rw [eela]; exact round2_nonneg _ (mul_nonneg_m _ _ m16 hr3)
  have m19 : 0 ≤ (calcOf rc rh re2 old.water_disposal inp).total.m := by
    rw [etot]
    exact round2_nonneg _ (add_nonneg_m _ _
      (add_nonneg_m _ _ (add_nonneg_m _ _ m5 m10) m13) m18)
  have f5 : (calcOf rc rh re2 old.water_disposal inp).cw_amt.s < (natChars (calcOf rc rh re2 old.water_disposal inp).cw_amt.m.natAbs).length + 6 :=
    fixed_of_small _ (by rw [ecwa, round2_s]; omega)
  have f10 : (calcOf rc rh re2 old.water_disposal inp).hw_amt.s < (natChars (calcOf rc rh re2 old.water_disposal inp).hw_amt.m.natAbs).length + 6 :=
    fixed_of_small _ (by rw [ehwa, round2_s]; omega)
  have f13 : (calcOf rc rh re2 old.water_disposal inp).wd_amt.s < (natChars (calcOf rc rh re2 old.water_disposal inp).wd_amt.m.natAbs).length + 6 :=
    fixed_of_small _ (by rw [ewda, round2_s]; omega)
  have f18 : (calcOf rc rh re2 old.water_disposal inp).el_amt.s < (natChars (calcOf rc rh re2 old.water_disposal inp).el_amt.m.natAbs).length + 6 :=
    fixed_of_small _ (by rw [eela, round2_s]; omega)
  have f19 : (calcOf rc rh re2 old.water_disposal inp).total.s < (natChars (calcOf rc rh re2 old.water_disposal inp).total.m.natAbs).length + 6 :=
    fixed_of_small _ (by rw [etot, round2_s]; omega)
  have do1 : digitsOnly (rc.current.toChars) := by
    rw [digitsOnly_toChars _ hrcm hrcs]; exact natChars_digitsOnly _
  have do2 : digitsOnly (inp.cw.toChars) := by
    rw [digitsOnly_toChars _ hm2 hcws]; exact natChars_digitsOnly _
  have do3 : digitsOnly ((calcOf rc rh re2 old.water_disposal inp).cw_cons.toChars) := by
    rw [digitsOnly_toChars _ m3 s3]; exact natChars_digitsOnly _
  have nt4 : numTok ((calcOf rc rh re2 old.water_disposal inp).cw_rate.toChars) := numTok_toChars _ hr1 hf1
  have nt5 : numTok ((calcOf rc rh re2 old.water_disposal inp).cw_amt.toChars) := numTok_toChars _ m5 f5
  have do6 : digitsOnly (rh.current.toChars) := by
    rw [digitsOnly_toChars _ hrhm hrhs]; exact natChars_digitsOnly _
  have do7 : digitsOnly (inp.hw.toChars) := by
    rw [digitsOnly_toChars _ hm7 hhws]; exact natChars_digitsOnly _
  have do8 : digitsOnly ((calcOf rc rh re2 old.water_disposal inp).hw_cons.toChars) := by
    rw [digitsOnly_toChars _ m8 s8]; exact natChars_digitsOnly _
  have nt9 : numTok ((calcOf rc rh re2 old.water_disposal inp).hw_rate.toChars) := numTok_toChars _ hr2 hf2
  have nt10 : numTok ((calcOf rc rh re2 old.water_disposal inp).hw_amt.toChars) := numTok_toChars _ m10 f10
  have do11 : digitsOnly ((calcOf rc rh re2 old.water_disposal inp).wd_cons.toChars) := by
    rw [digitsOnly_toChars _ m11 s11]; exact natChars_digitsOnly _
  have nt12 : numTok ((calcOf rc rh re2 old.water_disposal inp).wd_rate.toChars) := numTok_toChars _ hr4 hf4
  have nt13 : numTok ((calcOf rc rh re2 old.water_disposal inp).wd_amt.toChars) := numTok_toChars _ m13 f13
  have do14 : digitsOnly (re2.current.toChars) := by
    rw [digitsOnly_toChars _ hrem hres]; exact natChars_digitsOnly _
  have do15 : digitsOnly (inp.el.toChars) := by
    rw [digitsOnly_toChars _ hm15 hels]; exact natChars_digitsOnly _
  have do16 : digitsOnly ((calcOf rc rh re2 old.water_disposal inp).el_cons.toChars) := by
    rw [digitsOnly_toChars _ m16 s16]; exact natChars_digitsOnly _
  have nt17 : numTok ((calcOf rc rh re2 old.water_disposal inp).el_rate.toChars) := numTok_toChars _ hr3 hf3
  have nt18 : numTok ((calcOf rc rh re2 old.water_disposal inp).el_amt.toChars) := numTok_toChars _ m18 f18
  have nt19 : numTok ((calcOf rc rh re2 old.water_disposal inp).total.toChars) := numTok_toChars _ m19 f19
  have gd1 : ∀ c ∈ (rc.current.toChars), isDig c = true ∨ c = '.' := fun c hcm => Or.inl (do1.2 c hcm)
  have gd2 : ∀ c ∈ (inp.cw.toChars), isDig c = true ∨ c = '.' := fun c hcm => Or.inl (do2.2 c hcm)
  have gd3 : ∀ c ∈ ((calcOf rc rh re2 old.water_disposal inp).cw_cons.toChars), isDig c = true ∨ c = '.' := fun c hcm => Or.inl (do3.2 c hcm)
  have gd4 := numTok_digdot _ nt4
  have gd5 := numTok_digdot _ nt5
  have gd6 : ∀ c ∈ (rh.current.toChars), isDig c = true ∨ c = '.' := fun c hcm => Or.inl (do6.2 c hcm)
  have gd7 : ∀ c ∈ (inp.hw.toChars), isDig c = true ∨ c = '.' := fun c hcm => Or.inl (do7.2 c hcm)
  have gd8 : ∀ c ∈ ((calcOf rc rh re2 old.water_disposal inp).hw_cons.toChars), isDig c = true ∨ c = '.' := fun c hcm => Or.inl (do8.2 c hcm)
  have gd9 := numTok_digdot _ nt9
  have gd10 := numTok_digdot _ nt10
  have gd11 : ∀ c ∈ ((calcOf rc rh re2 old.water_disposal inp).wd_cons.toChars), isDig c = true ∨ c = '.' := fun c hcm => Or.inl (do11.2 c hcm)
  have gd12 := numTok_digdot _ nt12
  have gd13 := numTok_digdot _ nt13
  have gd14 : ∀ c ∈ (re2.current.toChars), isDig c = true ∨ c = '.' := fun c hcm => Or.inl (do14.2 c hcm)
  have gd15 : ∀ c ∈ (inp.el.toChars), isDig c = true ∨ c = '.' := fun c hcm => Or.inl (do15.2 c hcm)
  have gd16 : ∀ c ∈ ((calcOf rc rh re2 old.water_disposal inp).el_cons.toChars), isDig c = true ∨ c = '.' := fun c hcm => Or.inl (do16.2 c hcm)
  have gd17 := numTok_digdot _ nt17
  have gd18 := numTok_digdot _ nt18
  have gd19 := numTok_digdot _ nt19
  have p1 : (rc.current.toChars) ≠ [] ∧ ∀ c ∈ (rc.current.toChars), isWS c = false :=
    ⟨do1.1, fun c hcm => dig_not_ws (do1.2 c hcm)⟩
  have p2 : (inp.cw.toChars) ≠ [] ∧ ∀ c ∈ (inp.cw.toChars), isWS c = false :=
    ⟨do2.1, fun c hcm => dig_not_ws (do2.2 c hcm)⟩
  have p3 : ((calcOf rc rh re2 old.water_disposal inp).cw_cons.toChars) ≠ [] ∧ ∀ c ∈ ((calcOf rc rh re2 old.water_disposal inp).cw_cons.toChars), isWS c = false :=
    ⟨do3.1, fun c hcm => dig_not_ws (do3.2 c hcm)⟩
  have p4 : ((calcOf rc rh re2 old.water_disposal inp).cw_rate.toChars) ≠ [] ∧ ∀ c ∈ ((calcOf rc rh re2 old.water_disposal inp).cw_rate.toChars), isWS c = false :=
    ⟨numTok_ne_nil _ nt4, numTok_not_ws _ nt4⟩
  have p5 : ((calcOf rc rh re2 old.water_disposal inp).cw_amt.toChars) ≠ [] ∧ ∀ c ∈ ((calcOf rc rh re2 old.water_disposal inp).cw_amt.toChars), isWS c = false :=
    ⟨numTok_ne_nil _ nt5, numTok_not_ws _ nt5⟩
  have p6 : (rh.current.toChars) ≠ [] ∧ ∀ c ∈ (rh.current.toChars), isWS c = false :=
    ⟨do6.1, fun c hcm => dig_not_ws (do6.2 c hcm)⟩
  have p7 : (inp.hw.toChars) ≠ [] ∧ ∀ c ∈ (inp.hw.toChars), isWS c = false :=
    ⟨do7.1, fun c hcm => dig_not_ws (do7.2 c hcm)⟩
  have p8 : ((calcOf rc rh re2 old.water_disposal inp).hw_cons.toChars) ≠ [] ∧ ∀ c ∈ ((calcOf rc rh re2 old.water_disposal inp).hw_cons.toChars), isWS c = false :=
    ⟨do8.1, fun c hcm => dig_not_ws (do8.2 c hcm)⟩
  have p9 : ((calcOf rc rh re2 old.water_disposal inp).hw_rate.toChars) ≠ [] ∧ ∀ c ∈ ((calcOf rc rh re2 old.water_disposal inp).hw_rate.toChars), isWS c = false :=
    ⟨numTok_ne_nil _ nt9, numTok_not_ws _ nt9⟩
  have p10 : ((calcOf rc rh re2 old.water_disposal inp).hw_amt.toChars) ≠ [] ∧ ∀ c ∈ ((calcOf rc rh re2 old.water_disposal inp).hw_amt.toChars), isWS c = false :=
    ⟨numTok_ne_nil _ nt10, numTok_not_ws _ nt10⟩
  have p11 : ((calcOf rc rh re2 old.water_disposal inp).wd_cons.toChars) ≠ [] ∧ ∀ c ∈ ((calcOf rc rh re2 old.water_disposal inp).wd_cons.toChars), isWS c = false :=
    ⟨do11.1, fun c hcm => dig_not_ws (do11.2 c hcm)⟩
  have p12 : ((calcOf rc rh re2 old.water_disposal inp).wd_rate.toChars) ≠ [] ∧ ∀ c ∈ ((calcOf rc rh re2 old.water_disposal inp).wd_rate.toChars), isWS c = false :=
    ⟨numTok_ne_nil _ nt12, numTok_not_ws _ nt12⟩
  have p13 : ((calcOf rc rh re2 old.water_disposal inp).wd_amt.toChars) ≠ [] ∧ ∀ c ∈ ((calcOf rc rh re2 old.water_disposal inp).wd_amt.toChars), isWS c = false :=
    ⟨numTok_ne_nil _ nt13, numTok_not_ws _ nt13⟩
  have p14 : (re2.current.toChars) ≠ [] ∧ ∀ c ∈ (re2.current.toChars), isWS c = false :=
    ⟨do14.1, fun c hcm => dig_not_ws (do14.2 c hcm)⟩
  have p15 : (inp.el.toChars) ≠ [] ∧ ∀ c ∈ (inp.el.toChars), isWS c = false :=
    ⟨do15.1, fun c hcm => dig_not_ws (do15.2 c hcm)⟩
  have p16 : ((calcOf rc rh re2 old.water_disposal inp).el_cons.toChars) ≠ [] ∧ ∀ c ∈ ((calcOf rc rh re2 old.water_disposal inp).el_cons.toChars), isWS c = false :=
    ⟨do16.1, fun c hcm => dig_not_ws (do16.2 c hcm)⟩
  have p17 : ((calcOf rc rh re2 old.water_disposal inp).el_rate.toChars) ≠ [] ∧ ∀ c ∈ ((calcOf rc rh re2 old.water_disposal inp).el_rate.toChars), isWS c = false :=
    ⟨numTok_ne_nil _ nt17, numTok_not_ws _ nt17⟩
  have p18 : ((calcOf rc rh re2 old.water_disposal inp).el_amt.toChars) ≠ [] ∧ ∀ c ∈ ((calcOf rc rh re2 old.water_disposal inp).el_amt.toChars), isWS c = false :=
    ⟨numTok_ne_nil _ nt18, numTok_not_ws _ nt18⟩
  have p19 : ((calcOf rc rh re2 old.water_disposal inp).total.toChars) ≠ [] ∧ ∀ c ∈ ((calcOf rc rh re2 old.water_disposal inp).total.toChars), isWS c = false :=
    ⟨numTok_ne_nil _ nt19, numTok_not_ws _ nt19⟩
  obtain ⟨hb1, hb2, hb3, hb4, hb5, hb6⟩ := validDMY_bounds dt.day dt.month dt.year hdt
  have hDf := renderDate_facts dt (by omega) (by omega) (by omega)
  have pD : renderDate dt ≠ [] ∧ ∀ c ∈ renderDate dt, isWS c = false :=
    ⟨hDf.1, fun c hcm => digdot_not_ws c (hDf.2 c hcm)⟩
  have hbuild : buildMessage old inp dt = Except.ok
      (renderReport rc.current rh.current re2.current inp (calcOf rc rh re2 old.water_disposal inp) dt) := by
    unfold buildMessage
    rw [computeCalc_eq old inp rc rh re2 hc hh he, except_map_ok]
    rw [hc, hh, he]
    rfl
  have hre : renderReport rc.current rh.current re2.current inp (calcOf rc rh re2 old.water_disposal inp) dt =
      ((("Хол. вода:\nБыло - ").data) ++ ((rc.current.toChars) ++ ((("\nСтало - ").data) ++ ((inp.cw.toChars) ++ ((("\n\n").data) ++ (((calcOf rc rh re2 old.water_disposal inp).cw_cons.toChars) ++ (((" * ").data) ++ (((calcOf rc rh re2 old.water_disposal inp).cw_rate.toChars) ++ (((" = ").data) ++ (((calcOf rc rh re2 old.water_disposal inp).cw_amt.toChars) ++ ((("\n\n").data) ++ ((("Гор. вода:\nБыло - ").data) ++ ((rh.current.toChars) ++ ((("\nСтало - ").data) ++ ((inp.hw.toChars) ++ ((("\n\n").data) ++ (((calcOf rc rh re2 old.water_disposal inp).hw_cons.toChars) ++ (((" * ").data) ++ (((calcOf rc rh re2 old.water_disposal inp).hw_rate.toChars) ++ (((" = ").data) ++ (((calcOf rc rh re2 old.water_disposal inp).hw_amt.toChars) ++ ((("\n\n").data) ++ ((("Водоотведение:\n").data) ++ (((calcOf rc rh re2 old.water_disposal inp).wd_cons.toChars) ++ (((" * ").data) ++ (((calcOf rc rh re2 old.water_disposal inp).wd_rate.toChars) ++ (((" = ").data) ++ (((calcOf rc rh re2 old.water_disposal inp).wd_amt.toChars) ++ ((("\n\n").data) ++ ((("Электроэнергия:\nБыло - ").data) ++ ((re2.current.toChars) ++ ((("\nСтало - ").data) ++ ((inp.el.toChars) ++ ((("\n\n").data) ++ (((calcOf rc rh re2 old.water_disposal inp).el_cons.toChars) ++ (((" * ").data) ++ (((calcOf rc rh re2 old.water_disposal inp).el_rate.toChars) ++ (((" = ").data) ++ (((calcOf rc rh re2 old.water_disposal inp).el_amt.toChars) ++ ((("\n\n").data) ++ ((("Итого: ").data) ++ (((calcOf rc rh re2 old.water_disposal inp).total.toChars) ++ ((("\n\n").data) ++ ((("#счетчики ").data) ++ (renderDate dt))))))))))))))))))))))))))))))))))))))))))))) := by
    simp [renderReport, List.append_assoc]
  have hNM : pyNormalize (renderReport rc.current rh.current re2.current inp (calcOf rc rh re2 old.water_disposal inp) dt) =
      nmCold (rc.current.toChars) (inp.cw.toChars) ((calcOf rc rh re2 old.water_disposal inp).cw_cons.toChars) ((calcOf rc rh re2 old.water_disposal inp).cw_rate.toChars) ((calcOf rc rh re2 old.water_disposal inp).cw_amt.toChars) (nmHot (rh.current.toChars) (inp.hw.toChars) ((calcOf rc rh re2 old.water_disposal inp).hw_cons.toChars) ((calcOf rc rh re2 old.water_disposal inp).hw_rate.toChars) ((calcOf rc rh re2 old.water_disposal inp).hw_amt.toChars) (nmWd ((calcOf rc rh re2 old.water_disposal inp).wd_cons.toChars) ((calcOf rc rh re2 old.water_disposal inp).wd_rate.toChars) ((calcOf rc rh re2 old.water_disposal inp).wd_amt.toChars) (nmElec (re2.current.toChars) (inp.el.toChars) ((calcOf rc rh re2 old.water_disposal inp).el_cons.toChars) ((calcOf rc rh re2 old.water_disposal inp).el_rate.toChars) ((calcOf rc rh re2 old.water_disposal inp).el_amt.toChars) (nmTotal ((calcOf rc rh re2 old.water_disposal inp).total.toChars) (nmDate (renderDate dt)))))) := by
    rw [hre]
    exact normalize_render _ _ _ _ _ _ _ _ _ _ _ _ _ _ _ _ _ _ _ _
      p1 p2 p3 p4 p5 p6 p7 p8 p9 p10 p11 p12 p13 p14 p15 p16 p17 p18 p19 pD
  have hTot : searchFrom totalMatch
      (nmCold (rc.current.toChars) (inp.cw.toChars) ((calcOf rc rh re2 old.water_disposal inp).cw_cons.toChars) ((calcOf rc rh re2 old.water_disposal inp).cw_rate.toChars) ((calcOf rc rh re2 old.water_disposal inp).cw_amt.toChars) (nmHot (rh.current.toChars) (inp.hw.toChars) ((calcOf rc rh re2 old.water_disposal inp).hw_cons.toChars) ((calcOf rc rh re2 old.water_disposal inp).hw_rate.toChars) ((calcOf rc rh re2 old.water_disposal inp).hw_amt.toChars) (nmWd ((calcOf rc rh re2 old.water_disposal inp).wd_cons.toChars) ((calcOf rc rh re2 old.water_disposal inp).wd_rate.toChars) ((calcOf rc rh re2 old.water_disposal inp).wd_amt.toChars) (nmElec (re2.current.toChars) (inp.el.toChars) ((calcOf rc rh re2 old.water_disposal inp).el_cons.toChars) ((calcOf rc rh re2 old.water_disposal inp).el_rate.toChars) ((calcOf rc rh re2 old.water_disposal inp).el_amt.toChars) (nmTotal ((calcOf rc rh re2 old.water_disposal inp).total.toChars) (nmDate (renderDate dt))))))) = some ((calcOf rc rh re2 old.water_disposal inp).total.toChars) := by
    rw [skipCold_total _ _ _ _ _ _ gd1 gd2 gd3 gd4 gd5,
      skipHot_total _ _ _ _ _ _ gd6 gd7 gd8 gd9 gd10,
      skipWd_total _ _ _ _ gd11 gd12 gd13,
      skipElec_total _ _ _ _ _ _ gd14 gd15 gd16 gd17 gd18]
    exact searchFrom_some _ _ (totalMatch_at _ _ nt19)
  have hDate : searchFrom dateMatch
      (nmCold (rc.current.toChars) (inp.cw.toChars) ((calcOf rc rh re2 old.water_disposal inp).cw_cons.toChars) ((calcOf rc rh re2 old.water_disposal inp).cw_rate.toChars) ((calcOf rc rh re2 old.water_disposal inp).cw_amt.toChars) (nmHot (rh.current.toChars) (inp.hw.toChars) ((calcOf rc rh re2 old.water_disposal inp).hw_cons.toChars) ((calcOf rc rh re2 old.water_disposal inp).hw_rate.toChars) ((calcOf rc rh re2 old.water_disposal inp).hw_amt.toChars) (nmWd ((calcOf rc rh re2 old.water_disposal inp).wd_cons.toChars) ((calcOf rc rh re2 old.water_disposal inp).wd_rate.toChars) ((calcOf rc rh re2 old.water_disposal inp).wd_amt.toChars) (nmElec (re2.current.toChars) (inp.el.toChars) ((calcOf rc rh re2 old.water_disposal inp).el_cons.toChars) ((calcOf rc rh re2 old.water_disposal inp).el_rate.toChars) ((calcOf rc rh re2 old.water_disposal inp).el_amt.toChars) (nmTotal ((calcOf rc rh re2 old.water_disposal inp).total.toChars) (nmDate (renderDate dt))))))) = some (padNat 2 dt.day, padNat 2 dt.month, padNat 4 dt.year) := by
    rw [skipCold_date _ _ _ _ _ _ gd1 gd2 gd3 gd4 gd5,
      skipHot_date _ _ _ _ _ _ gd6 gd7 gd8 gd9 gd10,
      skipWd_date _ _ _ _ gd11 gd12 gd13,
      skipElec_date _ _ _ _ _ _ gd14 gd15 gd16 gd17 gd18,
      skipTotal_date _ _ gd19]
    rw [renderDate_assoc]
    exact searchFrom_some _ _
      (dateMatch_at dt.day dt.month dt.year hb1 (by omega) hb3 (by omega) hb5 (by omega))
  have hcold : coldOf (nmCold (rc.current.toChars) (inp.cw.toChars) ((calcOf rc rh re2 old.water_disposal inp).cw_cons.toChars) ((calcOf rc rh re2 old.water_disposal inp).cw_rate.toChars) ((calcOf rc rh re2 old.water_disposal inp).cw_amt.toChars) (nmHot (rh.current.toChars) (inp.hw.toChars) ((calcOf rc rh re2 old.water_disposal inp).hw_cons.toChars) ((calcOf rc rh re2 old.water_disposal inp).hw_rate.toChars) ((calcOf rc rh re2 old.water_disposal inp).hw_amt.toChars) (nmWd ((calcOf rc rh re2 old.water_disposal inp).wd_cons.toChars) ((calcOf rc rh re2 old.water_disposal inp).wd_rate.toChars) ((calcOf rc rh re2 old.water_disposal inp).wd_amt.toChars) (nmElec (re2.current.toChars) (inp.el.toChars) ((calcOf rc rh re2 old.water_disposal inp).el_cons.toChars) ((calcOf rc rh re2 old.water_disposal inp).el_rate.toChars) ((calcOf rc rh re2 old.water_disposal inp).el_amt.toChars) (nmTotal ((calcOf rc rh re2 old.water_disposal inp).total.toChars) (nmDate (renderDate dt))))))) =
      some (mkReading ((rc.current.toChars), (inp.cw.toChars), ((calcOf rc rh re2 old.water_disposal inp).cw_cons.toChars), ((calcOf rc rh re2 old.water_disposal inp).cw_rate.toChars), ((calcOf rc rh re2 old.water_disposal inp).cw_amt.toChars))) := by
    unfold coldOf
    rw [searchFrom_some _ _ (meterMatch_cold_at _ _ _ _ _ _ do1 do2 do3 nt4 nt5)]
    rfl
  have hhot : hotOf (nmCold (rc.current.toChars) (inp.cw.toChars) ((calcOf rc rh re2 old.water_disposal inp).cw_cons.toChars) ((calcOf rc rh re2 old.water_disposal inp).cw_rate.toChars) ((calcOf rc rh re2 old.water_disposal inp).cw_amt.toChars) (nmHot (rh.current.toChars) (inp.hw.toChars) ((calcOf rc rh re2 old.water_disposal inp).hw_cons.toChars) ((calcOf rc rh re2 old.water_disposal inp).hw_rate.toChars) ((calcOf rc rh re2 old.water_disposal inp).hw_amt.toChars) (nmWd ((calcOf rc rh re2 old.water_disposal inp).wd_cons.toChars) ((calcOf rc rh re2 old.water_disposal inp).wd_rate.toChars) ((calcOf rc rh re2 old.water_disposal inp).wd_amt.toChars) (nmElec (re2.current.toChars) (inp.el.toChars) ((calcOf rc rh re2 old.water_disposal inp).el_cons.toChars) ((calcOf rc rh re2 old.water_disposal inp).el_rate.toChars) ((calcOf rc rh re2 old.water_disposal inp).el_amt.toChars) (nmTotal ((calcOf rc rh re2 old.water_disposal inp).total.toChars) (nmDate (renderDate dt))))))) =
      some (mkReading ((rh.current.toChars), (inp.hw.toChars), ((calcOf rc rh re2 old.water_disposal inp).hw_cons.toChars), ((calcOf rc rh re2 old.water_disposal inp).hw_rate.toChars), ((calcOf rc rh re2 old.water_disposal inp).hw_amt.toChars))) := by
    unfold hotOf
    rw [skipCold_hot _ _ _ _ _ _ gd1 gd2 gd3 gd4 gd5,
      searchFrom_some _ _ (meterMatch_hot_at _ _ _ _ _ _ do6 do7 do8 nt9 nt10)]
    rfl
  have helec : elecOf (nmCold (rc.current.toChars) (inp.cw.toChars) ((calcOf rc rh re2 old.water_disposal inp).cw_cons.toChars) ((calcOf rc rh re2 old.water_disposal inp).cw_rate.toChars) ((calcOf rc rh re2 old.water_disposal inp).cw_amt.toChars) (nmHot (rh.current.toChars) (inp.hw.toChars) ((calcOf rc rh re2 old.water_disposal inp).hw_cons.toChars) ((calcOf rc rh re2 old.water_disposal inp).hw_rate.toChars) ((calcOf rc rh re2 old.water_disposal inp).hw_amt.toChars) (nmWd ((calcOf rc rh re2 old.water_disposal inp).wd_cons.toChars) ((calcOf rc rh re2 old.water_disposal inp).wd_rate.toChars) ((calcOf rc rh re2 old.water_disposal inp).wd_amt.toChars) (nmElec (re2.current.toChars) (inp.el.toChars) ((calcOf rc rh re2 old.water_disposal inp).el_cons.toChars) ((calcOf rc rh re2 old.water_disposal inp).el_rate.toChars) ((calcOf rc rh re2 old.water_disposal inp).el_amt.toChars) (nmTotal ((calcOf rc rh re2 old.water_disposal inp).total.toChars) (nmDate (renderDate dt))))))) =
      some (mkReading ((re2.current.toChars), (inp.el.toChars), ((calcOf rc rh re2 old.water_disposal inp).el_cons.toChars), ((calcOf rc rh re2 old.water_disposal inp).el_rate.toChars), ((calcOf rc rh re2 old.water_disposal inp).el_amt.toChars))) := by
    unfold elecOf
    rw [skipCold_elec _ _ _ _ _ _ gd1 gd2 gd3 gd4 gd5,
      skipHot_elec _ _ _ _ _ _ gd6 gd7 gd8 gd9 gd10,
      skipWd_elec _ _ _ _ gd11 gd12 gd13,
      searchFrom_some _ _ (meterMatch_elec_at _ _ _ _ _ _ do14 do15 do16 nt17 nt18)]
    rfl
  have hwd : wdOf (nmCold (rc.current.toChars) (inp.cw.toChars) ((calcOf rc rh re2 old.water_disposal inp).cw_cons.toChars) ((calcOf rc rh re2 old.water_disposal inp).cw_rate.toChars) ((calcOf rc rh re2 old.water_disposal inp).cw_amt.toChars) (nmHot (rh.current.toChars) (inp.hw.toChars) ((calcOf rc rh re2 old.water_disposal inp).hw_cons.toChars) ((calcOf rc rh re2 old.water_disposal inp).hw_rate.toChars) ((calcOf rc rh re2 old.water_disposal inp).hw_amt.toChars) (nmWd ((calcOf rc rh re2 old.water_disposal inp).wd_cons.toChars) ((calcOf rc rh re2 old.water_disposal inp).wd_rate.toChars) ((calcOf rc rh re2 old.water_disposal inp).wd_amt.toChars) (nmElec (re2.current.toChars) (inp.el.toChars) ((calcOf rc rh re2 old.water_disposal inp).el_cons.toChars) ((calcOf rc rh re2 old.water_disposal inp).el_rate.toChars) ((calcOf rc rh re2 old.water_disposal inp).el_amt.toChars) (nmTotal ((calcOf rc rh re2 old.water_disposal inp).total.toChars) (nmDate (renderDate dt))))))) =
      some ⟨⟨0, 0⟩,
        Dec.add (Dec.add ⟨0, 0⟩ (charsToDec (normDec ((calcOf rc rh re2 old.water_disposal inp).cw_cons.toChars)))) (charsToDec (normDec ((calcOf rc rh re2 old.water_disposal inp).hw_cons.toChars))),
        charsToDec (normDec ((calcOf rc rh re2 old.water_disposal inp).wd_cons.toChars)), charsToDec (normDec ((calcOf rc rh re2 old.water_disposal inp).wd_rate.toChars)),
        charsToDec (normDec ((calcOf rc rh re2 old.water_disposal inp).wd_amt.toChars))⟩ := by
    unfold wdOf
    rw [skipCold_wd _ _ _ _ _ _ gd1 gd2 gd3 gd4 gd5,
      skipHot_wd _ _ _ _ _ _ gd6 gd7 gd8 gd9 gd10,
      searchFrom_some _ _ (wdMatch_at _ _ _ _ do11 nt12 nt13)]
    rw [Option.map_some']
    dsimp only
    rw [hcold, hhot]
    rfl
  have v1 : digitsToNat (padNat 2 dt.day) = dt.day :=
    (padNat_spec 2 dt.day (by norm_num) (by norm_num; omega)).2.2
  have v2 : digitsToNat (padNat 2 dt.month) = dt.month :=
    (padNat_spec 2 dt.month (by norm_num) (by norm_num; omega)).2.2
  have v3 : digitsToNat (padNat 4 dt.year) = dt.year :=
    (padNat_spec 4 dt.year (by norm_num) (by norm_num; omega)).2.2
  have q1 : charsToDec (normDec (rc.current.toChars)) = rc.current := charsToDec_toChars _ hrcm (fixed_of_small _ (by omega))
  have q2 : charsToDec (normDec (inp.cw.toChars)) = inp.cw := charsToDec_toChars _ hm2 (fixed_of_small _ (by omega))
  have q3 : charsToDec (normDec ((calcOf rc rh re2 old.water_disposal inp).cw_cons.toChars)) = (calcOf rc rh re2 old.water_disposal inp).cw_cons := charsToDec_toChars _ m3 (fixed_of_small _ (by omega))
  have q4 : charsToDec (normDec ((calcOf rc rh re2 old.water_disposal inp).cw_rate.toChars)) = (calcOf rc rh re2 old.water_disposal inp).cw_rate := charsToDec_toChars _ hr1 hf1
  have q5 : charsToDec (normDec ((calcOf rc rh re2 old.water_disposal inp).cw_amt.toChars)) = (calcOf rc rh re2 old.water_disposal inp).cw_amt := charsToDec_toChars _ m5 f5
  have q6 : charsToDec (normDec (rh.current.toChars)) = rh.current := charsToDec_toChars _ hrhm (fixed_of_small _ (by omega))
  have q7 : charsToDec (normDec (inp.hw.toChars)) = inp.hw := charsToDec_toChars _ hm7 (fixed_of_small _ (by omega))
  have q8 : charsToDec (normDec ((calcOf rc rh re2 old.water_disposal inp).hw_cons.toChars)) = (calcOf rc rh re2 old.water_disposal inp).hw_cons := charsToDec_toChars _ m8 (fixed_of_small _ (by omega))
  have q9 : charsToDec (normDec ((calcOf rc rh re2 old.water_disposal inp).hw_rate.toChars)) = (calcOf rc rh re2 old.water_disposal inp).hw_rate := charsToDec_toChars _ hr2 hf2
  have q10 : charsToDec (normDec ((calcOf rc rh re2 old.water_disposal inp).hw_amt.toChars)) = (calcOf rc rh re2 old.water_disposal inp).hw_amt := charsToDec_toChars _ m10 f10
  have q11 : charsToDec (normDec ((calcOf rc rh re2 old.water_disposal inp).wd_cons.toChars)) = (calcOf rc rh re2 old.water_disposal inp).wd_cons := charsToDec_toChars _ m11 (fixed_of_small _ (by omega))
  have q12 : charsToDec (normDec ((calcOf rc rh re2 old.water_disposal inp).wd_rate.toChars)) = (calcOf rc rh re2 old.water_disposal inp).wd_rate := charsToDec_toChars _ hr4 hf4
  have q13 : charsToDec (normDec ((calcOf rc rh re2 old.water_disposal inp).wd_amt.toChars)) = (calcOf rc rh re2 old.water_disposal inp).wd_amt := charsToDec_toChars _ m13 f13
  have q14 : charsToDec (normDec (re2.current.toChars)) = re2.current := charsToDec_toChars _ hrem (fixed_of_small _ (by omega))
  have q15 : charsToDec (normDec (inp.el.toChars)) = inp.el := charsToDec_toChars _ hm15 (fixed_of_small _ (by omega))
  have q16 : charsToDec (normDec ((calcOf rc rh re2 old.water_disposal inp).el_cons.toChars)) = (calcOf rc rh re2 old.water_disposal inp).el_cons := charsToDec_toChars _ m16 (fixed_of_small _ (by omega))
  have q17 : charsToDec (normDec ((calcOf rc rh re2 old.water_disposal inp).el_rate.toChars)) = (calcOf rc rh re2 old.water_disposal inp).el_rate := charsToDec_toChars _ hr3 hf3
  have q18 : charsToDec (normDec ((calcOf rc rh re2 old.water_disposal inp).el_amt.toChars)) = (calcOf rc rh re2 old.water_disposal inp).el_amt := charsToDec_toChars _ m18 f18
  have q19 : charsToDec (normDec ((calcOf rc rh re2 old.water_disposal inp).total.toChars)) = (calcOf rc rh re2 old.water_disposal inp).total := charsToDec_toChars _ m19 f19
  refine ⟨hbuild, ?_⟩
  show parseFrom (pyNormalize
    (renderReport rc.current rh.current re2.current inp (calcOf rc rh re2 old.water_disposal inp) dt)) = _
  rw [hNM]
  unfold parseFrom
  rw [hTot, hDate]
  dsimp only
  rw [v1, v2, v3, if_pos hdt, hcold, hhot, hwd, helec]
  simp only [assembleBill, mkReading, rtBill, q1, q2, q3, q4, q5, q6, q7, q8, q9,
    q10, q11, q12, q13, q14, q15, q16, q17, q18, q19]

/-- C5 witness: the repository's example old bill with new readings
600, 52 and 8200 renders a report that re-parses exactly. -/
theorem claim_C5_witness :
    buildMessage exOld exInp ⟨1, 7, 2025⟩ = Except.ok
      (renderReport exCold.current exHot.current exElec.current exInp
        (calcOf exCold exHot exElec exOld.water_disposal exInp) ⟨1, 7, 2025⟩) ∧
    parse_message (renderReport exCold.current exHot.current exElec.current exInp
        (calcOf exCold exHot exElec exOld.water_disposal exInp) ⟨1, 7, 2025⟩) =
      Except.ok (rtBill exCold exHot exElec exInp
        (calcOf exCold exHot exElec exOld.water_disposal exInp) ⟨1, 7, 2025⟩) :=
  claim_C5 exOld exInp ⟨1, 7, 2025⟩ exCold exHot exElec rfl rfl rfl
    rfl (by decide) rfl (by decide) rfl (by decide)
    rfl rfl rfl (by decide) (by decide) (by decide)
    (by decide) (by decide) (by decide) (by decide)
    (by decide) (by decide) (by decide) (by decide) (by decide)

end UtilityBills
